import Mathlib

/-!
Inverter user interface (`UserInterfaceCode.cpp`): configuration state machine,
output synchroniser, LCD driver

A shallow embedding of the button-driven configuration state machine of the
12-PWM inverter user interface, of the output synchroniser that mirrors the
committed settings onto the GPIO pins, and of the 4-bit LCD driver behind the
I2C expander together with the text the pages format.

Conventions of the embedding

* The file-scope and function-scope `static` variables of the C++ source become
  the fields of one record `State`, which every function takes and returns.
* `uint8_t` / `uint16_t` variables are natural numbers; an operation whose C++
  result is truncated on assignment carries an explicit `% 256`.
* `absolute_time_t` is a natural number of microseconds; the signed 64-bit
  result of `absolute_time_diff_us` and its narrowing to `int` are explicit.
* Every `btn_high` read of one call of `handle_buttons`, and the value returned
  by `get_absolute_time()`, is an input of that call.  On every path BACK, FWD,
  UP and DOWN are read at most once per call.  SEL is read once (line 318 while
  browsing, line 381 while adjusting), except that the `CONFIG_PHASE` case reads
  it before that, at line 357 and again at line 361; the three reads are three
  inputs, since `sleep_ms` lets real time pass between them.  `sleep_ms` does
  not touch the state.
* The LCD functions take and return the trace of what they have done so far: a
  list of `LcdEvent`s (bus bytes and busy waits), oldest first.
* `pins` is the level last written to every GPIO; `writes` (the log of
  `gpio_put` calls, oldest first) and `commits` (the number of calls of
  `commit_temp_values`) are history variables that no code path reads.
-/

namespace UI

/-! ## Pin definitions (source lines 36-69) -/

abbrev PIN_LED_NORMAL : Nat := 10
abbrev PIN_LED_FAULT : Nat := 11
abbrev PIN_LED_CONFIG : Nat := 12

abbrev PIN_LED_PHASE_A : Nat := 28
abbrev PIN_LED_PHASE_B : Nat := 27
abbrev PIN_LED_PHASE_C : Nat := 26

abbrev PIN_LED_FAN_L : Nat := 1
abbrev PIN_LED_FAN_M : Nat := 0
abbrev PIN_LED_FAN_H : Nat := 9

abbrev PIN_WAVE_FREQ_SELECT : Nat := 21
abbrev PIN_PHASE_SEQUENCE : Nat := 20
abbrev PIN_FAN_CTL : Nat := 19

abbrev PIN_PHASE_SEL_A : Nat := 18
abbrev PIN_PHASE_SEL_B : Nat := 17
abbrev PIN_PHASE_SEL_C : Nat := 16

/-! ## Enumerations and state (source lines 171-205) -/

/-- UI modes, `enum UIMode`. -/
inductive UIMode where
  | MODE_STATUS
  | MODE_CONFIG
  | MODE_FAULT
  deriving DecidableEq, Repr

/-- The integer value of a `UIMode` enumerator. -/
def UIMode.val : UIMode → Nat
  | .MODE_STATUS => 0
  | .MODE_CONFIG => 1
  | .MODE_FAULT => 2

/-- The cast `(UIMode) n`; the source only casts values reduced modulo 3. -/
def UIMode.cast : Nat → UIMode
  | 0 => .MODE_STATUS
  | 1 => .MODE_CONFIG
  | _ => .MODE_FAULT

/-- Configuration sub-state, `enum CfgSub`. -/
inductive CfgSub where
  | CFG_BROWSE
  | CFG_ADJUST
  deriving DecidableEq, Repr

/-- Fan mode, `enum FanMode { FAN_OFF = 0, FAN_ON = 1 }`. -/
inductive FanMode where
  | FAN_OFF
  | FAN_ON
  deriving DecidableEq, Repr

/-- The integer value of a `FanMode` enumerator. -/
def FanMode.val : FanMode → Nat
  | .FAN_OFF => 0
  | .FAN_ON => 1

open UIMode CfgSub FanMode

abbrev CONFIG_FREQ : Nat := 0
abbrev CONFIG_PHASE : Nat := 1
abbrev CONFIG_SEQ : Nat := 2
abbrev CONFIG_FAN : Nat := 3
abbrev CONFIG_COUNT : Nat := 4

/-- All mutable program state. -/
structure State where
  ui_mode : UIMode
  last_mode : UIMode
  cfgIndex : Nat
  cfg_sub : CfgSub
  freq_hz : Nat
  phase_msk : Nat
  phase_seq : Nat
  fan_mode : FanMode
  t_freq : Nat
  t_phase : Nat
  t_seq : Nat
  t_fan : Bool
  fault_flag : Bool
  phase_cursor : Nat
  sel_prev : Bool
  sel_time : Nat
  pins : Nat → Bool
  writes : List (Nat × Bool)
  commits : Nat

/-- The levels `btn_high` returns during one call of `handle_buttons`: one read
of BACK, FWD, UP and DOWN; `sel` is the read of SEL at line 318 (browsing) or
line 381 (adjusting); `sel_toggle` and `sel_recheck` are the earlier reads of
SEL that the `CONFIG_PHASE` case makes at line 357 and at line 361. -/
structure Buttons where
  back : Bool
  fwd : Bool
  up : Bool
  down : Bool
  sel : Bool
  sel_toggle : Bool
  sel_recheck : Bool
  deriving DecidableEq, Repr

/-- Inputs of one call of `handle_buttons`: the button reads and the value that
`get_absolute_time()` returns (microseconds since boot). -/
structure Input where
  btn : Buttons
  now : Nat
  deriving DecidableEq, Repr

/-! ## Output helpers (source lines 85-110, 210-224) -/

/-- One `gpio_put(pin, v)`: the pin takes level `v`, and the write is logged. -/
def gpio_put (s : State) (pin : Nat) (v : Bool) : State :=
  { s with
    pins := fun p => if p = pin then v else s.pins p
    writes := s.writes ++ [(pin, v)] }

/-- Generic IO helper `io_set`. -/
def io_set (s : State) (pin : Nat) (v : Bool) : State :=
  gpio_put s pin v

/-- Phase enable status LEDs (A = bit 0, B = bit 1, C = bit 2). -/
def update_phase_leds (s : State) (mask : Nat) : State :=
  let s := io_set s PIN_LED_PHASE_A ((mask &&& 0x01) != 0)
  let s := io_set s PIN_LED_PHASE_B ((mask &&& 0x02) != 0)
  io_set s PIN_LED_PHASE_C ((mask &&& 0x04) != 0)

/-- Dedicated phase selection outputs (A = bit 0, B = bit 1, C = bit 2). -/
def update_phase_selects (s : State) (mask : Nat) : State :=
  let s := io_set s PIN_PHASE_SEL_A ((mask &&& 0x01) != 0)
  let s := io_set s PIN_PHASE_SEL_B ((mask &&& 0x02) != 0)
  io_set s PIN_PHASE_SEL_C ((mask &&& 0x04) != 0)

/-- Fan indicator LEDs. -/
def update_fan_leds (s : State) (m : Nat) : State :=
  let state := (m == 1)
  let s := io_set s PIN_LED_FAN_L state
  let s := io_set s PIN_LED_FAN_M state
  io_set s PIN_LED_FAN_H state

/-- Drive all physical outputs from the committed settings. -/
def update_outputs (s : State) : State :=
  let s := update_phase_leds s s.phase_msk
  let s := update_phase_selects s s.phase_msk
  let s := gpio_put s PIN_WAVE_FREQ_SELECT (s.freq_hz == 60)
  let s := gpio_put s PIN_PHASE_SEQUENCE (s.phase_seq != 0)
  gpio_put s PIN_FAN_CTL (s.fan_mode == FAN_ON)

/-! ## Commit (source lines 283-289) -/

/-- Copy the temporary settings onto the committed ones and drive the outputs. -/
def commit_temp_values (s : State) : State :=
  let s := { s with freq_hz := s.t_freq }
  let s := { s with phase_msk := s.t_phase }
  let s := { s with phase_seq := s.t_seq }
  let s := { s with fan_mode := if s.t_fan then FAN_ON else FAN_OFF }
  let s := { s with commits := s.commits + 1 }
  update_outputs s

/-! ## Time arithmetic -/

/-- Reading of an integer as a two's-complement value of `w` bits. -/
def wrapSigned (w : Nat) (x : Int) : Int :=
  let m := x % (2 : Int) ^ w
  if m < (2 : Int) ^ (w - 1) then m else m - (2 : Int) ^ w

/-- SDK function `absolute_time_diff_us(from, to)`: `to - from` as `int64_t`. -/
def absolute_time_diff_us (from_us to_us : Nat) : Int :=
  wrapSigned 64 ((to_us : Int) - (from_us : Int))

/-- The expression `int held_ms = absolute_time_diff_us(sel_time, now) / 1000`:
a truncating 64-bit division narrowed to a 32-bit `int`. -/
def held_ms (sel_time now : Nat) : Int :=
  wrapSigned 32 (Int.tdiv (absolute_time_diff_us sel_time now) 1000)

/-! ## Button handling (source lines 292-395) -/

/-- Lines 294-303: page cycling when not in adjust mode. -/
def page_cycling (s : State) (b : Buttons) : State :=
  if s.cfg_sub ≠ CFG_ADJUST then
    if b.back then
      { s with ui_mode := UIMode.cast ((s.ui_mode.val + 3 - 1) % 3) }
    else if b.fwd then
      { s with ui_mode := UIMode.cast ((s.ui_mode.val + 1) % 3) }
    else s
  else s

/-- Lines 310-327: item browsing and begin-edit. -/
def browse_buttons (s : State) (b : Buttons) : State :=
  let s := if b.up then
      { s with cfgIndex := (s.cfgIndex + CONFIG_COUNT - 1) % CONFIG_COUNT } else s
  let s := if b.down then
      { s with cfgIndex := (s.cfgIndex + 1) % CONFIG_COUNT } else s
  if b.sel then
    { s with
      t_freq := s.freq_hz
      t_phase := s.phase_msk
      t_seq := s.phase_seq
      t_fan := (s.fan_mode == FAN_ON)
      phase_cursor := 0
      cfg_sub := CFG_ADJUST }
  else s

/-- Lines 346-364: the `CONFIG_PHASE` case. -/
def adjust_phase (s : State) (b : Buttons) : State :=
  let s := if b.up then { s with phase_cursor := (s.phase_cursor + 1) % 3 } else s
  let s := if b.down then { s with phase_cursor := (s.phase_cursor + 2) % 3 } else s
  if b.sel_toggle && !s.sel_prev then
    { s with
      sel_prev := true
      t_phase := (s.t_phase ^^^ (1 <<< s.phase_cursor)) % 256 }
  else if !b.sel_recheck then
    { s with sel_prev := false }
  else s

/-- Lines 335-379: the `switch(cfgIndex)` of the adjust branch. -/
def adjust_item (s : State) (b : Buttons) : State :=
  match s.cfgIndex with
  | 0 =>
    let s := if b.up then { s with t_freq := if s.t_freq = 50 then 60 else 50 } else s
    if b.down then { s with t_freq := if s.t_freq = 60 then 50 else 60 } else s
  | 1 => adjust_phase s b
  | 2 => if b.up || b.down then { s with t_seq := (s.t_seq ^^^ 1) % 256 } else s
  | 3 => if b.up || b.down then { s with t_fan := !s.t_fan } else s
  | _ => s

/-- Lines 380-392: press-time recording, long-press commit, `sel_prev` update. -/
def long_press (s : State) (i : Input) : State :=
  let sel_now := i.btn.sel
  let s := if sel_now && !s.sel_prev then { s with sel_time := i.now } else s
  let s := if !sel_now && s.sel_prev then
      if held_ms s.sel_time i.now ≥ 600 then
        { commit_temp_values s with cfg_sub := CFG_BROWSE }
      else s
    else s
  { s with sel_prev := sel_now }

/-- Lines 328-393: the `CFG_ADJUST` branch, with its early return on confirm. -/
def adjust_buttons (s : State) (i : Input) : State :=
  if i.btn.back || i.btn.fwd then
    { commit_temp_values s with cfg_sub := CFG_BROWSE }
  else
    long_press (adjust_item s i.btn) i

/-- The function `handle_buttons`. -/
def handle_buttons (s : State) (i : Input) : State :=
  let s := page_cycling s i.btn
  if s.ui_mode = MODE_CONFIG then
    if s.cfg_sub = CFG_BROWSE then browse_buttons s i.btn
    else adjust_buttons s i
  else s

/-! ## Main loop (source lines 436-463) -/

/-- Lines 441-447: the mode-change commit check and the `last_mode` update. -/
def mode_change_check (s : State) : State :=
  let s := if s.last_mode = MODE_CONFIG ∧ s.ui_mode ≠ MODE_CONFIG then
      if s.cfg_sub = CFG_ADJUST then
        { commit_temp_values s with cfg_sub := CFG_BROWSE }
      else s
    else s
  { s with last_mode := s.ui_mode }

/-- Lines 454-463: the indicator writes of every loop iteration. -/
def refresh_indicators (s : State) : State :=
  let s := update_phase_leds s s.phase_msk
  let s := update_phase_selects s s.phase_msk
  let s := update_fan_leds s
    (if s.ui_mode = MODE_CONFIG ∧ s.cfg_sub = CFG_ADJUST
      then (if s.t_fan then 1 else 0) else s.fan_mode.val)
  let s := gpio_put s PIN_LED_NORMAL (decide (s.ui_mode ≠ MODE_CONFIG) && !s.fault_flag)
  let s := gpio_put s PIN_LED_CONFIG (decide (s.ui_mode = MODE_CONFIG))
  gpio_put s PIN_LED_FAULT s.fault_flag

/-- One iteration of the `while(true)` loop of `main`, as far as it touches the
state modelled here (the blink timer and the LCD rendering read the state but
do not write any of its fields). -/
def loop_step (s : State) (i : Input) : State :=
  refresh_indicators (mode_change_check (handle_buttons s i))

/-- A run of the poll loop over a list of per-cycle inputs. -/
def run (s : State) : List Input → State
  | [] => s
  | i :: is => run (loop_step s i) is

/-- The static initialisers, with every pin low as `gpio_init` leaves it. -/
def static_init : State where
  ui_mode := MODE_STATUS
  last_mode := MODE_STATUS
  cfgIndex := 0
  cfg_sub := CFG_BROWSE
  freq_hz := 60
  phase_msk := 0x07
  phase_seq := 0
  fan_mode := FAN_OFF
  t_freq := 0
  t_phase := 0
  t_seq := 0
  t_fan := false
  fault_flag := false
  phase_cursor := 0
  sel_prev := false
  sel_time := 0
  pins := fun _ => false
  writes := []
  commits := 0

/-- The state on entry to the `while(true)` loop: `main` has called
`update_outputs()` once on the initial committed settings. -/
def init_state : State := update_outputs static_init

/-- The committed settings of a state. -/
def committed (s : State) : Nat × Nat × Nat × FanMode :=
  (s.freq_hz, s.phase_msk, s.phase_seq, s.fan_mode)

/-- The edit buffer of a state, in the shape of committed settings: the value
`commit_temp_values` would store. -/
def edit_buffer (s : State) : Nat × Nat × Nat × FanMode :=
  (s.t_freq, s.t_phase, s.t_seq, if s.t_fan then FAN_ON else FAN_OFF)

/-- The nine `gpio_put` calls of `update_outputs`, in program order. -/
def output_writes (s : State) : List (Nat × Bool) :=
  [ (PIN_LED_PHASE_A, (s.phase_msk &&& 0x01) != 0),
    (PIN_LED_PHASE_B, (s.phase_msk &&& 0x02) != 0),
    (PIN_LED_PHASE_C, (s.phase_msk &&& 0x04) != 0),
    (PIN_PHASE_SEL_A, (s.phase_msk &&& 0x01) != 0),
    (PIN_PHASE_SEL_B, (s.phase_msk &&& 0x02) != 0),
    (PIN_PHASE_SEL_C, (s.phase_msk &&& 0x04) != 0),
    (PIN_WAVE_FREQ_SELECT, s.freq_hz == 60),
    (PIN_PHASE_SEQUENCE, s.phase_seq != 0),
    (PIN_FAN_CTL, s.fan_mode == FAN_ON) ]

/-- Every cycle of the run over `inputs` from `s` starts in the adjust sub-state. -/
def stays_editing : State → List Input → Bool
  | _, [] => true
  | s, i :: rest => decide (s.cfg_sub = CFG_ADJUST) && stays_editing (loop_step s i) rest

/-- The button levels with only SEL high, at every read of it. -/
def only_sel : Buttons := ⟨false, false, false, false, true, true, true⟩

/-- The button levels with every button low. -/
def no_buttons : Buttons := ⟨false, false, false, false, false, false, false⟩

/-- The button levels with only BACK high. -/
def only_back : Buttons := ⟨true, false, false, false, false, false, false⟩

/-- The button levels with only FWD high. -/
def only_fwd : Buttons := ⟨false, true, false, false, false, false, false⟩

/-- The button levels with only UP high. -/
def only_up : Buttons := ⟨false, false, true, false, false, false, false⟩

/-- The button levels with only DOWN high. -/
def only_down : Buttons := ⟨false, false, false, true, false, false, false⟩

/-- The state after one FWD cycle from boot: CONFIG page, browsing, FREQ selected. -/
def config_page_state : State := run init_state [⟨only_fwd, 1000000⟩]

/-- The state after FWD and then SEL from boot: editing FREQ. -/
def editing_freq_state : State :=
  run init_state [⟨only_fwd, 1000000⟩, ⟨only_sel, 2000000⟩, ⟨no_buttons, 3000000⟩]

/-- The state after FWD, DOWN and then SEL from boot: editing PHASE. -/
def editing_phase_state : State :=
  run init_state [⟨only_fwd, 1000000⟩, ⟨only_down, 2000000⟩, ⟨only_sel, 3000000⟩,
    ⟨no_buttons, 4000000⟩]

/-- SEL is high and neither BACK nor FWD is. -/
def sel_held (i : Input) : Bool := i.btn.sel && !i.btn.back && !i.btn.fwd

/-- SEL is low and neither BACK nor FWD is high. -/
def sel_released (i : Input) : Bool := !i.btn.sel && !i.btn.back && !i.btn.fwd

/-- State `s` belongs to an edit session of `s0` during which SEL is being held
since a press edge seen at clock value `t1`, with nothing committed. -/
def Holding (s0 : State) (t1 : Nat) (s : State) : Prop :=
  s.ui_mode = MODE_CONFIG ∧ s.cfg_sub = CFG_ADJUST ∧ s.sel_prev = true ∧ s.sel_time = t1 ∧
  s.cfgIndex = s0.cfgIndex ∧ committed s = committed s0 ∧ s.commits = s0.commits

/-- State `s` belongs to an edit session on the PHASE item that started from
`s0`: nothing committed, edit-buffer phase mask `mask`, phase cursor `cursor`,
remembered SEL level `prev`, the other edit-buffer fields as in `s0`. -/
def PhaseEditing (s0 s : State) (mask cursor : Nat) (prev : Bool) : Prop :=
  s.ui_mode = MODE_CONFIG ∧ s.cfg_sub = CFG_ADJUST ∧ s.cfgIndex = CONFIG_PHASE ∧
  s.t_phase = mask ∧ s.phase_cursor = cursor ∧ s.sel_prev = prev ∧
  s.t_freq = s0.t_freq ∧ s.t_seq = s0.t_seq ∧ s.t_fan = s0.t_fan ∧
  committed s = committed s0 ∧ s.commits = s0.commits

/-- The state after FWD and DOWN from boot: CONFIG page, browsing, PHASE
selected, committed settings 60 Hz, mask 0b111, ABC, fan off. -/
def phase_selected_state : State :=
  run init_state [⟨only_fwd, 1000000⟩, ⟨only_down, 2000000⟩]

/-- The state after, from boot, selecting PHASE, beginning an edit and toggling
phase A off: editing PHASE with edit-buffer mask 0b110, committed mask 0b111. -/
def edited_phase_state : State :=
  run init_state [⟨only_fwd, 1000000⟩, ⟨only_down, 2000000⟩, ⟨only_sel, 3000000⟩,
    ⟨no_buttons, 4000000⟩, ⟨only_sel, 5000000⟩, ⟨no_buttons, 6000000⟩]

/-- The state after, from boot, beginning an edit of FREQ and pressing UP once:
editing FREQ with edit-buffer frequency 50, committed frequency 60. -/
def edited_freq_state : State :=
  run init_state [⟨only_fwd, 1000000⟩, ⟨only_sel, 2000000⟩, ⟨only_up, 3000000⟩,
    ⟨no_buttons, 4000000⟩]

/-- Inputs of the phase scenario up to the first SEL release: begin edit, UP,
UP, SEL press seen at 6.0 s, SEL release seen at 6.3 s. -/
def phase_scenario_edit : List Input :=
  [⟨only_sel, 3000000⟩, ⟨only_up, 4000000⟩, ⟨only_up, 5000000⟩, ⟨only_sel, 6000000⟩,
    ⟨no_buttons, 6300000⟩]

/-- The reads of a tap on SEL that ends during the `sleep_ms(100)` of the toggle:
SEL is high at the read of line 357 and low at the read of line 381. -/
def sel_tap : Buttons := ⟨false, false, false, false, false, true, true⟩

/-- A SEL press held for 800 ms (press edge seen at 8.0 s, release edge at 8.8 s). -/
def long_sel_press : List Input :=
  [⟨only_sel, 8000000⟩, ⟨only_sel, 8400000⟩, ⟨no_buttons, 8800000⟩]

/-- The committed settings lie in their domains. -/
def CommittedInDomain (s : State) : Prop :=
  (s.freq_hz = 50 ∨ s.freq_hz = 60) ∧ s.phase_msk ≤ 7 ∧
  (s.phase_seq = 0 ∨ s.phase_seq = 1) ∧ (s.fan_mode = FAN_OFF ∨ s.fan_mode = FAN_ON)

/-- The edit buffer lies in the same domains and the phase cursor is 0, 1 or 2. -/
def EditInDomain (s : State) : Prop :=
  (s.t_freq = 50 ∨ s.t_freq = 60) ∧ s.t_phase ≤ 7 ∧
  (s.t_seq = 0 ∨ s.t_seq = 1) ∧ s.phase_cursor ≤ 2

/-- The domain invariant: committed settings in domain, and edit buffer and
cursor in domain while the sub-state is `CFG_ADJUST`. -/
def DomainInv (s : State) : Prop :=
  CommittedInDomain s ∧ (s.cfg_sub = CFG_ADJUST → EditInDomain s)

/-- The pins `update_outputs` writes, in program order. -/
def output_pins : List Nat :=
  [PIN_LED_PHASE_A, PIN_LED_PHASE_B, PIN_LED_PHASE_C,
   PIN_PHASE_SEL_A, PIN_PHASE_SEL_B, PIN_PHASE_SEL_C,
   PIN_WAVE_FREQ_SELECT, PIN_PHASE_SEQUENCE, PIN_FAN_CTL]

/-- Pin levels after `update_outputs`. -/
@[irreducible] def synced_pins (s : State) : Nat → Bool := (update_outputs s).pins

/-- Pin levels after the indicator writes of a loop iteration. -/
@[irreducible] def refreshed_pins (s : State) : Nat → Bool := (refresh_indicators s).pins

/-- The write log after the indicator writes of a loop iteration. -/
@[irreducible] def refreshed_writes (s : State) : List (Nat × Bool) := (refresh_indicators s).writes

/-- The state `commit_temp_values` computes its outputs from. -/
def copied (s : State) : State :=
  { s with
    freq_hz := s.t_freq
    phase_msk := s.t_phase
    phase_seq := s.t_seq
    fan_mode := if s.t_fan then FAN_ON else FAN_OFF
    commits := s.commits + 1 }

/-- Between two states: the commit counter does not decrease, and the committed
settings are the same unless it has increased. -/
def OnlyByCommit (s s' : State) : Prop :=
  s.commits ≤ s'.commits ∧ (s'.commits = s.commits → committed s' = committed s)

/-! ## LCD helper functions (source lines 126-167) -/

/-- What the LCD driver does towards the outside: a one-byte transmission on the
I2C bus, or a busy wait. -/
inductive LcdEvent where
  | bus (d : Nat)
  | sleep_us (n : Nat)
  | sleep_ms (n : Nat)
  deriving DecidableEq, Repr

namespace lcd

/-- Function `lcd::i2c_write`: one byte (a `uint8_t`) goes out on the bus. -/
def i2c_write (tr : List LcdEvent) (d : Nat) : List LcdEvent :=
  tr ++ [LcdEvent.bus (d % 256)]

/-- SDK function `sleep_us`. -/
def sleep_us (tr : List LcdEvent) (n : Nat) : List LcdEvent :=
  tr ++ [LcdEvent.sleep_us n]

/-- SDK function `sleep_ms`. -/
def sleep_ms (tr : List LcdEvent) (n : Nat) : List LcdEvent :=
  tr ++ [LcdEvent.sleep_ms n]

/-- Function `lcd::pulse_en`; `~0x04` is the `int` with bit pattern 0xFFFFFFFB. -/
def pulse_en (tr : List LcdEvent) (d : Nat) : List LcdEvent :=
  let tr := i2c_write tr (d ||| 0x04)
  let tr := sleep_us tr 50
  let tr := i2c_write tr (d &&& 0xFFFFFFFB)
  sleep_us tr 50

/-- Function `lcd::write4`. -/
def write4 (tr : List LcdEvent) (nib : Nat) (rs : Bool) : List LcdEvent :=
  let data := (0x08 ||| (if rs then 0x01 else 0x00) ||| (nib <<< 4)) % 256
  let tr := i2c_write tr data
  pulse_en tr data

/-- Function `lcd::write8`. -/
def write8 (tr : List LcdEvent) (v : Nat) (rs : Bool) : List LcdEvent :=
  let tr := write4 tr (v >>> 4) rs
  write4 tr (v &&& 0x0F) rs

/-- Function `lcd::cmd`. -/
def cmd (tr : List LcdEvent) (c : Nat) : List LcdEvent :=
  let tr := write8 tr c false
  if c < 4 then sleep_ms tr 2 else tr

/-- Function `lcd::data`. -/
def data (tr : List LcdEvent) (d : Nat) : List LcdEvent :=
  write8 tr d true

/-- Function `lcd::init`. -/
def init (tr : List LcdEvent) : List LcdEvent :=
  let tr := sleep_ms tr 50
  let tr := sleep_ms (write4 tr 0x03 false) 5
  let tr := sleep_ms (write4 tr 0x03 false) 5
  let tr := sleep_ms (write4 tr 0x03 false) 5
  let tr := sleep_ms (write4 tr 0x02 false) 5
  let tr := cmd tr 0x28
  let tr := cmd tr 0x0C
  let tr := cmd tr 0x01
  cmd tr 0x06

/-- Function `lcd::clear`. -/
def clear (tr : List LcdEvent) : List LcdEvent :=
  cmd tr 0x01

/-- Function `lcd::set_cursor`; the sum is narrowed to the `uint8_t` parameter
of `cmd`. -/
def set_cursor (tr : List LcdEvent) (c r : Nat) : List LcdEvent :=
  cmd tr (((if r ≠ 0 then 0xC0 else 0x80) + c) % 256)

/-- Function `lcd::puts`, on the bytes of the string; it stops at the first NUL. -/
def puts (tr : List LcdEvent) : List Nat → List LcdEvent
  | [] => tr
  | c :: cs => if c = 0 then tr else puts (data tr c) cs

end lcd

/-- The bytes transmitted on the bus, in order. -/
def bus_bytes : List LcdEvent → List Nat
  | [] => []
  | LcdEvent.bus d :: rest => d :: bus_bytes rest
  | _ :: rest => bus_bytes rest

/-- The byte `0x08 | rs | (v & 0xF0)`: backlight bit, register-select bit and the
high nibble of `v` in the upper four bits. -/
def high_byte (v : Nat) (rs : Bool) : Nat :=
  0x08 ||| (if rs then 0x01 else 0x00) ||| (v &&& 0xF0)

/-- The byte `0x08 | rs | ((v & 0x0F) << 4)`: backlight bit, register-select bit
and the low nibble of `v` in the upper four bits. -/
def low_byte (v : Nat) (rs : Bool) : Nat :=
  0x08 ||| (if rs then 0x01 else 0x00) ||| ((v &&& 0x0F) <<< 4)

/-- The events of one nibble transaction with bus byte `d`: the byte, the byte
with the enable bit, a 50 microsecond wait, the byte again, a 50 microsecond
wait. -/
def nibble_events (d : Nat) : List LcdEvent :=
  [LcdEvent.bus d, LcdEvent.bus (d ||| 0x04), LcdEvent.sleep_us 50, LcdEvent.bus d,
    LcdEvent.sleep_us 50]

/-- The successor in the cyclic order STATUS, CONFIG, FAULT, STATUS. -/
def next_mode : UIMode → UIMode
  | MODE_STATUS => MODE_CONFIG
  | MODE_CONFIG => MODE_FAULT
  | MODE_FAULT => MODE_STATUS

/-- The predecessor in the cyclic order STATUS, CONFIG, FAULT, STATUS. -/
def prev_mode : UIMode → UIMode
  | MODE_STATUS => MODE_FAULT
  | MODE_CONFIG => MODE_STATUS
  | MODE_FAULT => MODE_CONFIG

/-- Settings `c1` agree with settings `c0` in every field except, possibly, the
one that belongs to config item `item` (FREQ: frequency, PHASE: phase mask,
SEQ: phase sequence, FAN: fan mode). -/
def differs_at_most (item : Nat) (c0 c1 : Nat × Nat × Nat × FanMode) : Prop :=
  (item ≠ CONFIG_FREQ → c1.1 = c0.1) ∧ (item ≠ CONFIG_PHASE → c1.2.1 = c0.2.1) ∧
  (item ≠ CONFIG_SEQ → c1.2.2.1 = c0.2.2.1) ∧ (item ≠ CONFIG_FAN → c1.2.2.2 = c0.2.2.2)

/-- The adjust sub-state only occurs on the CONFIG page. -/
def EditingOnConfig (s : State) : Prop :=
  s.cfg_sub = CFG_ADJUST → s.ui_mode = MODE_CONFIG

/-- The condition of the defensive branch of the main loop (source lines
441-442): the mode has just left CONFIG while the sub-state is still adjust. -/
def defensive_branch_taken (x : State) : Prop :=
  x.last_mode = MODE_CONFIG ∧ x.ui_mode ≠ MODE_CONFIG ∧ x.cfg_sub = CFG_ADJUST

/-- Pin numbers as documented in the file header (source lines 14-21). -/
abbrev HEADER_PIN_LED_PHASE_A : Nat := 28
abbrev HEADER_PIN_LED_PHASE_B : Nat := 27
abbrev HEADER_PIN_LED_PHASE_C : Nat := 26
abbrev HEADER_PIN_PHASE_SEL_A : Nat := 20
abbrev HEADER_PIN_PHASE_SEL_B : Nat := 21
abbrev HEADER_PIN_PHASE_SEL_C : Nat := 22
abbrev HEADER_PIN_WAVE_FREQ_SELECT : Nat := 7
abbrev HEADER_PIN_PHASE_SEQUENCE : Nat := 8
abbrev HEADER_PIN_FAN_CTL : Nat := 13

/-! ## Page rendering (source lines 112-123, 227-273) -/

/-- Function `fmt_phase`: one letter per enabled phase, a dash otherwise. -/
def fmt_phase (mask : Nat) : String :=
  String.mk
    [ if (mask &&& 0x01) != 0 then 'A' else '-',
      if (mask &&& 0x02) != 0 then 'B' else '-',
      if (mask &&& 0x04) != 0 then 'C' else '-' ]

/-- The text `sprintf(l, "FREQ=%uHz FAN=%s", ...)` produces in `page_status`. -/
def status_line1 (s : State) : String :=
  "FREQ=" ++ toString s.freq_hz ++ "Hz FAN=" ++ (if s.fan_mode = FAN_ON then "ON" else "OFF")

/-- The text `sprintf(l, "SEQ=%s", ...)` produces in `page_status`. -/
def status_line2 (s : State) : String :=
  "SEQ=" ++ (if s.phase_seq = 0 then "ABC" else "ACB")

/-- The bytes of a string, as `lcd::puts` reads them. -/
def c_bytes (t : String) : List Nat :=
  t.toList.map Char.toNat

/-- Function `page_status`, as the LCD trace it produces. -/
def page_status (s : State) (tr : List LcdEvent) : List LcdEvent :=
  let tr := lcd.clear tr
  let tr := lcd.puts tr (c_bytes (status_line1 s))
  let tr := lcd.set_cursor tr 0 1
  lcd.puts tr (c_bytes (status_line2 s))

/-- The size of the line buffer `char l[17]` of `page_status` and `page_config`. -/
abbrev LINE_BUFFER_SIZE : Nat := 17

/-- The text `page_config` puts into its line buffer `l`: blanks while the item
under edit is blinked off, the value of the selected item otherwise. -/
def config_value (s : State) (blink_on : Bool) : String :=
  if s.cfg_sub = CFG_ADJUST ∧ blink_on = false then "     "
  else
    match s.cfgIndex with
    | 0 => "=" ++ toString s.t_freq
    | 1 => "=" ++ fmt_phase s.t_phase
    | 2 => "=" ++ (if s.t_seq = 0 then "ABC" else "ACB")
    | 3 => "=" ++ (if s.t_fan then "ON" else "OFF")
    | _ => ""

/-- The text `page_config` would show for the selected item if it rendered the
committed settings. -/
def committed_value (s : State) : String :=
  match s.cfgIndex with
  | 0 => "=" ++ toString s.freq_hz
  | 1 => "=" ++ fmt_phase s.phase_msk
  | 2 => "=" ++ (if s.phase_seq = 0 then "ABC" else "ACB")
  | 3 => "=" ++ (if s.fan_mode = FAN_ON then "ON" else "OFF")
  | _ => ""

/-- In the browsing sub-state the edit buffer equals the committed settings. -/
def BufferMirrorsCommitted (s : State) : Prop :=
  s.cfg_sub = CFG_BROWSE → edit_buffer s = committed s

/-! ## Bit lemmas -/

theorem and_two_pow_ne_zero (m k : Nat) : ((m &&& 2 ^ k) != 0) = m.testBit k := by
  have h : m &&& 2 ^ k = if m.testBit k then 2 ^ k else 0 := by
    apply Nat.eq_of_testBit_eq
    intro j
    rw [Nat.testBit_and, Nat.testBit_two_pow]
    by_cases hkj : k = j
    · subst hkj
      cases hb : m.testBit k <;> simp [Nat.testBit_two_pow]
    · cases hb : m.testBit k <;> simp [hkj, Nat.testBit_two_pow]
  rw [h]
  cases hb : m.testBit k
  · simp
  · have : (2 : Nat) ^ k ≠ 0 := by positivity
    simp [this]

theorem and_one_ne_zero (m : Nat) : ((m &&& 1) != 0) = m.testBit 0 := by
  simpa using and_two_pow_ne_zero m 0

theorem and_two_ne_zero (m : Nat) : ((m &&& 2) != 0) = m.testBit 1 := by
  simpa using and_two_pow_ne_zero m 1

theorem and_four_ne_zero (m : Nat) : ((m &&& 4) != 0) = m.testBit 2 := by
  simpa using and_two_pow_ne_zero m 2

/-! ## Output synchroniser -/

theorem update_outputs_pins (s : State) :
    (update_outputs s).pins = fun p =>
      if p = PIN_FAN_CTL then s.fan_mode == FAN_ON
      else if p = PIN_PHASE_SEQUENCE then s.phase_seq != 0
      else if p = PIN_WAVE_FREQ_SELECT then s.freq_hz == 60
      else if p = PIN_PHASE_SEL_C then (s.phase_msk &&& 0x04) != 0
      else if p = PIN_PHASE_SEL_B then (s.phase_msk &&& 0x02) != 0
      else if p = PIN_PHASE_SEL_A then (s.phase_msk &&& 0x01) != 0
      else if p = PIN_LED_PHASE_C then (s.phase_msk &&& 0x04) != 0
      else if p = PIN_LED_PHASE_B then (s.phase_msk &&& 0x02) != 0
      else if p = PIN_LED_PHASE_A then (s.phase_msk &&& 0x01) != 0
      else s.pins p := by
  simp only [update_outputs, update_phase_leds, update_phase_selects, io_set, gpio_put]

theorem update_outputs_writes (s : State) :
    (update_outputs s).writes = s.writes ++ output_writes s := by
  simp [update_outputs, update_phase_leds, update_phase_selects, io_set, gpio_put,
    output_writes]

/-- Claim C1: after `update_outputs`, the phase LED pins and the phase selection
pins carry bits 0, 1, 2 of `phase_msk`, the frequency-select pin is high iff
`freq_hz = 60`, the sequence pin is high iff `phase_seq` is non-zero, the fan
pin is high iff `fan_mode = FAN_ON`, every other pin keeps its level, and the
nine written pins are pairwise distinct. -/
theorem C1_update_outputs_mapping (s : State) :
    (update_outputs s).pins PIN_LED_PHASE_A = s.phase_msk.testBit 0 ∧
    (update_outputs s).pins PIN_LED_PHASE_B = s.phase_msk.testBit 1 ∧
    (update_outputs s).pins PIN_LED_PHASE_C = s.phase_msk.testBit 2 ∧
    (update_outputs s).pins PIN_PHASE_SEL_A = s.phase_msk.testBit 0 ∧
    (update_outputs s).pins PIN_PHASE_SEL_B = s.phase_msk.testBit 1 ∧
    (update_outputs s).pins PIN_PHASE_SEL_C = s.phase_msk.testBit 2 ∧
    ((update_outputs s).pins PIN_WAVE_FREQ_SELECT = true ↔ s.freq_hz = 60) ∧
    ((update_outputs s).pins PIN_PHASE_SEQUENCE = true ↔ s.phase_seq ≠ 0) ∧
    ((update_outputs s).pins PIN_FAN_CTL = true ↔ s.fan_mode = FAN_ON) ∧
    (∀ p, p ∉ output_pins → (update_outputs s).pins p = s.pins p) ∧
    output_pins.Nodup ∧
    committed (update_outputs s) = committed s := by
  rw [update_outputs_pins]
  refine ⟨?_, ?_, ?_, ?_, ?_, ?_, ?_, ?_, ?_, ?_, ?_, ?_⟩
  · simpa using and_one_ne_zero s.phase_msk
  · simpa using and_two_ne_zero s.phase_msk
  · simpa using and_four_ne_zero s.phase_msk
  · simpa using and_one_ne_zero s.phase_msk
  · simpa using and_two_ne_zero s.phase_msk
  · simpa using and_four_ne_zero s.phase_msk
  · simp
  · simp
  · simp
  · intro p hp
    simp only [output_pins, List.mem_cons, List.mem_singleton, List.mem_nil_iff,
      not_or] at hp
    simp [hp]
  · simp [output_pins]
  · simp [committed, update_outputs, update_phase_leds, update_phase_selects, io_set,
      gpio_put]

/-! ## Frame lemmas: the output helpers only touch `pins` and `writes` -/

theorem update_outputs_eq (s : State) :
    update_outputs s =
      { s with pins := synced_pins s, writes := s.writes ++ output_writes s } := by
  simp [synced_pins, update_outputs, update_phase_leds, update_phase_selects, io_set,
    gpio_put, output_writes]

theorem refresh_indicators_eq (s : State) :
    refresh_indicators s =
      { s with pins := refreshed_pins s, writes := refreshed_writes s } := by
  simp only [refreshed_pins, refreshed_writes, refresh_indicators, update_phase_leds,
    update_phase_selects, update_fan_leds, io_set, gpio_put]

theorem commit_temp_values_eq (s : State) :
    commit_temp_values s =
      { s with
        freq_hz := s.t_freq
        phase_msk := s.t_phase
        phase_seq := s.t_seq
        fan_mode := if s.t_fan then FAN_ON else FAN_OFF
        commits := s.commits + 1
        pins := synced_pins (copied s)
        writes := s.writes ++ output_writes (copied s) } := by
  show update_outputs (copied s) = _
  rw [update_outputs_eq]
  rfl

/-! ## Frame lemmas: fields a function leaves alone -/

@[simp] theorem page_cycling_last_mode (s : State) (b : Buttons) :
    (page_cycling s b).last_mode = s.last_mode := by
  unfold page_cycling
  split_ifs <;> rfl

@[simp] theorem page_cycling_cfgIndex (s : State) (b : Buttons) :
    (page_cycling s b).cfgIndex = s.cfgIndex := by
  unfold page_cycling
  split_ifs <;> rfl

@[simp] theorem page_cycling_cfg_sub (s : State) (b : Buttons) :
    (page_cycling s b).cfg_sub = s.cfg_sub := by
  unfold page_cycling
  split_ifs <;> rfl

@[simp] theorem page_cycling_freq_hz (s : State) (b : Buttons) :
    (page_cycling s b).freq_hz = s.freq_hz := by
  unfold page_cycling
  split_ifs <;> rfl

@[simp] theorem page_cycling_phase_msk (s : State) (b : Buttons) :
    (page_cycling s b).phase_msk = s.phase_msk := by
  unfold page_cycling
  split_ifs <;> rfl

@[simp] theorem page_cycling_phase_seq (s : State) (b : Buttons) :
    (page_cycling s b).phase_seq = s.phase_seq := by
  unfold page_cycling
  split_ifs <;> rfl

@[simp] theorem page_cycling_fan_mode (s : State) (b : Buttons) :
    (page_cycling s b).fan_mode = s.fan_mode := by
  unfold page_cycling
  split_ifs <;> rfl

@[simp] theorem page_cycling_t_freq (s : State) (b : Buttons) :
    (page_cycling s b).t_freq = s.t_freq := by
  unfold page_cycling
  split_ifs <;> rfl

@[simp] theorem page_cycling_t_phase (s : State) (b : Buttons) :
    (page_cycling s b).t_phase = s.t_phase := by
  unfold page_cycling
  split_ifs <;> rfl

@[simp] theorem page_cycling_t_seq (s : State) (b : Buttons) :
    (page_cycling s b).t_seq = s.t_seq := by
  unfold page_cycling
  split_ifs <;> rfl

@[simp] theorem page_cycling_t_fan (s : State) (b : Buttons) :
    (page_cycling s b).t_fan = s.t_fan := by
  unfold page_cycling
  split_ifs <;> rfl

@[simp] theorem page_cycling_fault_flag (s : State) (b : Buttons) :
    (page_cycling s b).fault_flag = s.fault_flag := by
  unfold page_cycling
  split_ifs <;> rfl

@[simp] theorem page_cycling_phase_cursor (s : State) (b : Buttons) :
    (page_cycling s b).phase_cursor = s.phase_cursor := by
  unfold page_cycling
  split_ifs <;> rfl

@[simp] theorem page_cycling_sel_prev (s : State) (b : Buttons) :
    (page_cycling s b).sel_prev = s.sel_prev := by
  unfold page_cycling
  split_ifs <;> rfl

@[simp] theorem page_cycling_sel_time (s : State) (b : Buttons) :
    (page_cycling s b).sel_time = s.sel_time := by
  unfold page_cycling
  split_ifs <;> rfl

@[simp] theorem page_cycling_pins (s : State) (b : Buttons) :
    (page_cycling s b).pins = s.pins := by
  unfold page_cycling
  split_ifs <;> rfl

@[simp] theorem page_cycling_writes (s : State) (b : Buttons) :
    (page_cycling s b).writes = s.writes := by
  unfold page_cycling
  split_ifs <;> rfl

@[simp] theorem page_cycling_commits (s : State) (b : Buttons) :
    (page_cycling s b).commits = s.commits := by
  unfold page_cycling
  split_ifs <;> rfl

@[simp] theorem browse_buttons_ui_mode (s : State) (b : Buttons) :
    (browse_buttons s b).ui_mode = s.ui_mode := by
  rcases b with ⟨back, fwd, up, down, sel, st, sr⟩
  cases up <;> cases down <;> cases sel <;> rfl

@[simp] theorem browse_buttons_last_mode (s : State) (b : Buttons) :
    (browse_buttons s b).last_mode = s.last_mode := by
  rcases b with ⟨back, fwd, up, down, sel, st, sr⟩
  cases up <;> cases down <;> cases sel <;> rfl

@[simp] theorem browse_buttons_freq_hz (s : State) (b : Buttons) :
    (browse_buttons s b).freq_hz = s.freq_hz := by
  rcases b with ⟨back, fwd, up, down, sel, st, sr⟩
  cases up <;> cases down <;> cases sel <;> rfl

@[simp] theorem browse_buttons_phase_msk (s : State) (b : Buttons) :
    (browse_buttons s b).phase_msk = s.phase_msk := by
  rcases b with ⟨back, fwd, up, down, sel, st, sr⟩
  cases up <;> cases down <;> cases sel <;> rfl

@[simp] theorem browse_buttons_phase_seq (s : State) (b : Buttons) :
    (browse_buttons s b).phase_seq = s.phase_seq := by
  rcases b with ⟨back, fwd, up, down, sel, st, sr⟩
  cases up <;> cases down <;> cases sel <;> rfl

@[simp] theorem browse_buttons_fan_mode (s : State) (b : Buttons) :
    (browse_buttons s b).fan_mode = s.fan_mode := by
  rcases b with ⟨back, fwd, up, down, sel, st, sr⟩
  cases up <;> cases down <;> cases sel <;> rfl

@[simp] theorem browse_buttons_fault_flag (s : State) (b : Buttons) :
    (browse_buttons s b).fault_flag = s.fault_flag := by
  rcases b with ⟨back, fwd, up, down, sel, st, sr⟩
  cases up <;> cases down <;> cases sel <;> rfl

@[simp] theorem browse_buttons_sel_prev (s : State) (b : Buttons) :
    (browse_buttons s b).sel_prev = s.sel_prev := by
  rcases b with ⟨back, fwd, up, down, sel, st, sr⟩
  cases up <;> cases down <;> cases sel <;> rfl

@[simp] theorem browse_buttons_sel_time (s : State) (b : Buttons) :
    (browse_buttons s b).sel_time = s.sel_time := by
  rcases b with ⟨back, fwd, up, down, sel, st, sr⟩
  cases up <;> cases down <;> cases sel <;> rfl

@[simp] theorem browse_buttons_pins (s : State) (b : Buttons) :
    (browse_buttons s b).pins = s.pins := by
  rcases b with ⟨back, fwd, up, down, sel, st, sr⟩
  cases up <;> cases down <;> cases sel <;> rfl

@[simp] theorem browse_buttons_writes (s : State) (b : Buttons) :
    (browse_buttons s b).writes = s.writes := by
  rcases b with ⟨back, fwd, up, down, sel, st, sr⟩
  cases up <;> cases down <;> cases sel <;> rfl

@[simp] theorem browse_buttons_commits (s : State) (b : Buttons) :
    (browse_buttons s b).commits = s.commits := by
  rcases b with ⟨back, fwd, up, down, sel, st, sr⟩
  cases up <;> cases down <;> cases sel <;> rfl

@[simp] theorem adjust_phase_ui_mode (s : State) (b : Buttons) :
    (adjust_phase s b).ui_mode = s.ui_mode := by
  rcases b with ⟨back, fwd, up, down, sel, st, sr⟩
  cases up <;> cases down <;> cases st <;> cases sr <;> cases hp : s.sel_prev <;>
    simp [adjust_phase, hp]

@[simp] theorem adjust_phase_last_mode (s : State) (b : Buttons) :
    (adjust_phase s b).last_mode = s.last_mode := by
  rcases b with ⟨back, fwd, up, down, sel, st, sr⟩
  cases up <;> cases down <;> cases st <;> cases sr <;> cases hp : s.sel_prev <;>
    simp [adjust_phase, hp]

@[simp] theorem adjust_phase_cfgIndex (s : State) (b : Buttons) :
    (adjust_phase s b).cfgIndex = s.cfgIndex := by
  rcases b with ⟨back, fwd, up, down, sel, st, sr⟩
  cases up <;> cases down <;> cases st <;> cases sr <;> cases hp : s.sel_prev <;>
    simp [adjust_phase, hp]

@[simp] theorem adjust_phase_cfg_sub (s : State) (b : Buttons) :
    (adjust_phase s b).cfg_sub = s.cfg_sub := by
  rcases b with ⟨back, fwd, up, down, sel, st, sr⟩
  cases up <;> cases down <;> cases st <;> cases sr <;> cases hp : s.sel_prev <;>
    simp [adjust_phase, hp]

@[simp] theorem adjust_phase_freq_hz (s : State) (b : Buttons) :
    (adjust_phase s b).freq_hz = s.freq_hz := by
  rcases b with ⟨back, fwd, up, down, sel, st, sr⟩
  cases up <;> cases down <;> cases st <;> cases sr <;> cases hp : s.sel_prev <;>
    simp [adjust_phase, hp]

@[simp] theorem adjust_phase_phase_msk (s : State) (b : Buttons) :
    (adjust_phase s b).phase_msk = s.phase_msk := by
  rcases b with ⟨back, fwd, up, down, sel, st, sr⟩
  cases up <;> cases down <;> cases st <;> cases sr <;> cases hp : s.sel_prev <;>
    simp [adjust_phase, hp]

@[simp] theorem adjust_phase_phase_seq (s : State) (b : Buttons) :
    (adjust_phase s b).phase_seq = s.phase_seq := by
  rcases b with ⟨back, fwd, up, down, sel, st, sr⟩
  cases up <;> cases down <;> cases st <;> cases sr <;> cases hp : s.sel_prev <;>
    simp [adjust_phase, hp]

@[simp] theorem adjust_phase_fan_mode (s : State) (b : Buttons) :
    (adjust_phase s b).fan_mode = s.fan_mode := by
  rcases b with ⟨back, fwd, up, down, sel, st, sr⟩
  cases up <;> cases down <;> cases st <;> cases sr <;> cases hp : s.sel_prev <;>
    simp [adjust_phase, hp]

@[simp] theorem adjust_phase_t_freq (s : State) (b : Buttons) :
    (adjust_phase s b).t_freq = s.t_freq := by
  rcases b with ⟨back, fwd, up, down, sel, st, sr⟩
  cases up <;> cases down <;> cases st <;> cases sr <;> cases hp : s.sel_prev <;>
    simp [adjust_phase, hp]

@[simp] theorem adjust_phase_t_seq (s : State) (b : Buttons) :
    (adjust_phase s b).t_seq = s.t_seq := by
  rcases b with ⟨back, fwd, up, down, sel, st, sr⟩
  cases up <;> cases down <;> cases st <;> cases sr <;> cases hp : s.sel_prev <;>
    simp [adjust_phase, hp]

@[simp] theorem adjust_phase_t_fan (s : State) (b : Buttons) :
    (adjust_phase s b).t_fan = s.t_fan := by
  rcases b with ⟨back, fwd, up, down, sel, st, sr⟩
  cases up <;> cases down <;> cases st <;> cases sr <;> cases hp : s.sel_prev <;>
    simp [adjust_phase, hp]

@[simp] theorem adjust_phase_fault_flag (s : State) (b : Buttons) :
    (adjust_phase s b).fault_flag = s.fault_flag := by
  rcases b with ⟨back, fwd, up, down, sel, st, sr⟩
  cases up <;> cases down <;> cases st <;> cases sr <;> cases hp : s.sel_prev <;>
    simp [adjust_phase, hp]

@[simp] theorem adjust_phase_sel_time (s : State) (b : Buttons) :
    (adjust_phase s b).sel_time = s.sel_time := by
  rcases b with ⟨back, fwd, up, down, sel, st, sr⟩
  cases up <;> cases down <;> cases st <;> cases sr <;> cases hp : s.sel_prev <;>
    simp [adjust_phase, hp]

@[simp] theorem adjust_phase_pins (s : State) (b : Buttons) :
    (adjust_phase s b).pins = s.pins := by
  rcases b with ⟨back, fwd, up, down, sel, st, sr⟩
  cases up <;> cases down <;> cases st <;> cases sr <;> cases hp : s.sel_prev <;>
    simp [adjust_phase, hp]

@[simp] theorem adjust_phase_writes (s : State) (b : Buttons) :
    (adjust_phase s b).writes = s.writes := by
  rcases b with ⟨back, fwd, up, down, sel, st, sr⟩
  cases up <;> cases down <;> cases st <;> cases sr <;> cases hp : s.sel_prev <;>
    simp [adjust_phase, hp]

@[simp] theorem adjust_phase_commits (s : State) (b : Buttons) :
    (adjust_phase s b).commits = s.commits := by
  rcases b with ⟨back, fwd, up, down, sel, st, sr⟩
  cases up <;> cases down <;> cases st <;> cases sr <;> cases hp : s.sel_prev <;>
    simp [adjust_phase, hp]

@[simp] theorem adjust_item_ui_mode (s : State) (b : Buttons) :
    (adjust_item s b).ui_mode = s.ui_mode := by
  rcases b with ⟨back, fwd, up, down, sel, st, sr⟩
  cases up <;> cases down <;> (unfold adjust_item; split <;> simp)

@[simp] theorem adjust_item_last_mode (s : State) (b : Buttons) :
    (adjust_item s b).last_mode = s.last_mode := by
  rcases b with ⟨back, fwd, up, down, sel, st, sr⟩
  cases up <;> cases down <;> (unfold adjust_item; split <;> simp)

@[simp] theorem adjust_item_cfgIndex (s : State) (b : Buttons) :
    (adjust_item s b).cfgIndex = s.cfgIndex := by
  rcases b with ⟨back, fwd, up, down, sel, st, sr⟩
  cases up <;> cases down <;> (unfold adjust_item; split <;> simp)

@[simp] theorem adjust_item_cfg_sub (s : State) (b : Buttons) :
    (adjust_item s b).cfg_sub = s.cfg_sub := by
  rcases b with ⟨back, fwd, up, down, sel, st, sr⟩
  cases up <;> cases down <;> (unfold adjust_item; split <;> simp)

@[simp] theorem adjust_item_freq_hz (s : State) (b : Buttons) :
    (adjust_item s b).freq_hz = s.freq_hz := by
  rcases b with ⟨back, fwd, up, down, sel, st, sr⟩
  cases up <;> cases down <;> (unfold adjust_item; split <;> simp)

@[simp] theorem adjust_item_phase_msk (s : State) (b : Buttons) :
    (adjust_item s b).phase_msk = s.phase_msk := by
  rcases b with ⟨back, fwd, up, down, sel, st, sr⟩
  cases up <;> cases down <;> (unfold adjust_item; split <;> simp)

@[simp] theorem adjust_item_phase_seq (s : State) (b : Buttons) :
    (adjust_item s b).phase_seq = s.phase_seq := by
  rcases b with ⟨back, fwd, up, down, sel, st, sr⟩
  cases up <;> cases down <;> (unfold adjust_item; split <;> simp)

@[simp] theorem adjust_item_fan_mode (s : State) (b : Buttons) :
    (adjust_item s b).fan_mode = s.fan_mode := by
  rcases b with ⟨back, fwd, up, down, sel, st, sr⟩
  cases up <;> cases down <;> (unfold adjust_item; split <;> simp)

@[simp] theorem adjust_item_fault_flag (s : State) (b : Buttons) :
    (adjust_item s b).fault_flag = s.fault_flag := by
  rcases b with ⟨back, fwd, up, down, sel, st, sr⟩
  cases up <;> cases down <;> (unfold adjust_item; split <;> simp)

@[simp] theorem adjust_item_sel_time (s : State) (b : Buttons) :
    (adjust_item s b).sel_time = s.sel_time := by
  rcases b with ⟨back, fwd, up, down, sel, st, sr⟩
  cases up <;> cases down <;> (unfold adjust_item; split <;> simp)

@[simp] theorem adjust_item_pins (s : State) (b : Buttons) :
    (adjust_item s b).pins = s.pins := by
  rcases b with ⟨back, fwd, up, down, sel, st, sr⟩
  cases up <;> cases down <;> (unfold adjust_item; split <;> simp)

@[simp] theorem adjust_item_writes (s : State) (b : Buttons) :
    (adjust_item s b).writes = s.writes := by
  rcases b with ⟨back, fwd, up, down, sel, st, sr⟩
  cases up <;> cases down <;> (unfold adjust_item; split <;> simp)

@[simp] theorem adjust_item_commits (s : State) (b : Buttons) :
    (adjust_item s b).commits = s.commits := by
  rcases b with ⟨back, fwd, up, down, sel, st, sr⟩
  cases up <;> cases down <;> (unfold adjust_item; split <;> simp)

@[simp] theorem long_press_ui_mode (s : State) (i : Input) :
    (long_press s i).ui_mode = s.ui_mode := by
  rcases i with ⟨⟨back, fwd, up, down, sel, st, sr⟩, now⟩
  cases sel <;> cases hp : s.sel_prev <;> simp [long_press, hp, commit_temp_values_eq]
  split_ifs <;> rfl

@[simp] theorem long_press_last_mode (s : State) (i : Input) :
    (long_press s i).last_mode = s.last_mode := by
  rcases i with ⟨⟨back, fwd, up, down, sel, st, sr⟩, now⟩
  cases sel <;> cases hp : s.sel_prev <;> simp [long_press, hp, commit_temp_values_eq]
  split_ifs <;> rfl

@[simp] theorem long_press_cfgIndex (s : State) (i : Input) :
    (long_press s i).cfgIndex = s.cfgIndex := by
  rcases i with ⟨⟨back, fwd, up, down, sel, st, sr⟩, now⟩
  cases sel <;> cases hp : s.sel_prev <;> simp [long_press, hp, commit_temp_values_eq]
  split_ifs <;> rfl

@[simp] theorem long_press_t_freq (s : State) (i : Input) :
    (long_press s i).t_freq = s.t_freq := by
  rcases i with ⟨⟨back, fwd, up, down, sel, st, sr⟩, now⟩
  cases sel <;> cases hp : s.sel_prev <;> simp [long_press, hp, commit_temp_values_eq]
  split_ifs <;> rfl

@[simp] theorem long_press_t_phase (s : State) (i : Input) :
    (long_press s i).t_phase = s.t_phase := by
  rcases i with ⟨⟨back, fwd, up, down, sel, st, sr⟩, now⟩
  cases sel <;> cases hp : s.sel_prev <;> simp [long_press, hp, commit_temp_values_eq]
  split_ifs <;> rfl

@[simp] theorem long_press_t_seq (s : State) (i : Input) :
    (long_press s i).t_seq = s.t_seq := by
  rcases i with ⟨⟨back, fwd, up, down, sel, st, sr⟩, now⟩
  cases sel <;> cases hp : s.sel_prev <;> simp [long_press, hp, commit_temp_values_eq]
  split_ifs <;> rfl

@[simp] theorem long_press_t_fan (s : State) (i : Input) :
    (long_press s i).t_fan = s.t_fan := by
  rcases i with ⟨⟨back, fwd, up, down, sel, st, sr⟩, now⟩
  cases sel <;> cases hp : s.sel_prev <;> simp [long_press, hp, commit_temp_values_eq]
  split_ifs <;> rfl

@[simp] theorem long_press_fault_flag (s : State) (i : Input) :
    (long_press s i).fault_flag = s.fault_flag := by
  rcases i with ⟨⟨back, fwd, up, down, sel, st, sr⟩, now⟩
  cases sel <;> cases hp : s.sel_prev <;> simp [long_press, hp, commit_temp_values_eq]
  split_ifs <;> rfl

@[simp] theorem long_press_phase_cursor (s : State) (i : Input) :
    (long_press s i).phase_cursor = s.phase_cursor := by
  rcases i with ⟨⟨back, fwd, up, down, sel, st, sr⟩, now⟩
  cases sel <;> cases hp : s.sel_prev <;> simp [long_press, hp, commit_temp_values_eq]
  split_ifs <;> rfl

@[simp] theorem mode_change_check_ui_mode (s : State) :
    (mode_change_check s).ui_mode = s.ui_mode := by
  unfold mode_change_check
  simp only [commit_temp_values_eq]
  split_ifs <;> rfl

@[simp] theorem mode_change_check_cfgIndex (s : State) :
    (mode_change_check s).cfgIndex = s.cfgIndex := by
  unfold mode_change_check
  simp only [commit_temp_values_eq]
  split_ifs <;> rfl

@[simp] theorem mode_change_check_t_freq (s : State) :
    (mode_change_check s).t_freq = s.t_freq := by
  unfold mode_change_check
  simp only [commit_temp_values_eq]
  split_ifs <;> rfl

@[simp] theorem mode_change_check_t_phase (s : State) :
    (mode_change_check s).t_phase = s.t_phase := by
  unfold mode_change_check
  simp only [commit_temp_values_eq]
  split_ifs <;> rfl

@[simp] theorem mode_change_check_t_seq (s : State) :
    (mode_change_check s).t_seq = s.t_seq := by
  unfold mode_change_check
  simp only [commit_temp_values_eq]
  split_ifs <;> rfl

@[simp] theorem mode_change_check_t_fan (s : State) :
    (mode_change_check s).t_fan = s.t_fan := by
  unfold mode_change_check
  simp only [commit_temp_values_eq]
  split_ifs <;> rfl

@[simp] theorem mode_change_check_fault_flag (s : State) :
    (mode_change_check s).fault_flag = s.fault_flag := by
  unfold mode_change_check
  simp only [commit_temp_values_eq]
  split_ifs <;> rfl

@[simp] theorem mode_change_check_phase_cursor (s : State) :
    (mode_change_check s).phase_cursor = s.phase_cursor := by
  unfold mode_change_check
  simp only [commit_temp_values_eq]
  split_ifs <;> rfl

@[simp] theorem mode_change_check_sel_prev (s : State) :
    (mode_change_check s).sel_prev = s.sel_prev := by
  unfold mode_change_check
  simp only [commit_temp_values_eq]
  split_ifs <;> rfl

@[simp] theorem mode_change_check_sel_time (s : State) :
    (mode_change_check s).sel_time = s.sel_time := by
  unfold mode_change_check
  simp only [commit_temp_values_eq]
  split_ifs <;> rfl

@[simp] theorem refresh_indicators_ui_mode (s : State) :
    (refresh_indicators s).ui_mode = s.ui_mode := by
  rw [refresh_indicators_eq]

@[simp] theorem refresh_indicators_last_mode (s : State) :
    (refresh_indicators s).last_mode = s.last_mode := by
  rw [refresh_indicators_eq]

@[simp] theorem refresh_indicators_cfgIndex (s : State) :
    (refresh_indicators s).cfgIndex = s.cfgIndex := by
  rw [refresh_indicators_eq]

@[simp] theorem refresh_indicators_cfg_sub (s : State) :
    (refresh_indicators s).cfg_sub = s.cfg_sub := by
  rw [refresh_indicators_eq]

@[simp] theorem refresh_indicators_freq_hz (s : State) :
    (refresh_indicators s).freq_hz = s.freq_hz := by
  rw [refresh_indicators_eq]

@[simp] theorem refresh_indicators_phase_msk (s : State) :
    (refresh_indicators s).phase_msk = s.phase_msk := by
  rw [refresh_indicators_eq]

@[simp] theorem refresh_indicators_phase_seq (s : State) :
    (refresh_indicators s).phase_seq = s.phase_seq := by
  rw [refresh_indicators_eq]

@[simp] theorem refresh_indicators_fan_mode (s : State) :
    (refresh_indicators s).fan_mode = s.fan_mode := by
  rw [refresh_indicators_eq]

@[simp] theorem refresh_indicators_t_freq (s : State) :
    (refresh_indicators s).t_freq = s.t_freq := by
  rw [refresh_indicators_eq]

@[simp] theorem refresh_indicators_t_phase (s : State) :
    (refresh_indicators s).t_phase = s.t_phase := by
  rw [refresh_indicators_eq]

@[simp] theorem refresh_indicators_t_seq (s : State) :
    (refresh_indicators s).t_seq = s.t_seq := by
  rw [refresh_indicators_eq]

@[simp] theorem refresh_indicators_t_fan (s : State) :
    (refresh_indicators s).t_fan = s.t_fan := by
  rw [refresh_indicators_eq]

@[simp] theorem refresh_indicators_fault_flag (s : State) :
    (refresh_indicators s).fault_flag = s.fault_flag := by
  rw [refresh_indicators_eq]

@[simp] theorem refresh_indicators_phase_cursor (s : State) :
    (refresh_indicators s).phase_cursor = s.phase_cursor := by
  rw [refresh_indicators_eq]

@[simp] theorem refresh_indicators_sel_prev (s : State) :
    (refresh_indicators s).sel_prev = s.sel_prev := by
  rw [refresh_indicators_eq]

@[simp] theorem refresh_indicators_sel_time (s : State) :
    (refresh_indicators s).sel_time = s.sel_time := by
  rw [refresh_indicators_eq]

@[simp] theorem refresh_indicators_commits (s : State) :
    (refresh_indicators s).commits = s.commits := by
  rw [refresh_indicators_eq]

@[simp] theorem update_outputs_ui_mode (s : State) :
    (update_outputs s).ui_mode = s.ui_mode := by
  rw [update_outputs_eq]

@[simp] theorem update_outputs_last_mode (s : State) :
    (update_outputs s).last_mode = s.last_mode := by
  rw [update_outputs_eq]

@[simp] theorem update_outputs_cfgIndex (s : State) :
    (update_outputs s).cfgIndex = s.cfgIndex := by
  rw [update_outputs_eq]

@[simp] theorem update_outputs_cfg_sub (s : State) :
    (update_outputs s).cfg_sub = s.cfg_sub := by
  rw [update_outputs_eq]

@[simp] theorem update_outputs_freq_hz (s : State) :
    (update_outputs s).freq_hz = s.freq_hz := by
  rw [update_outputs_eq]

@[simp] theorem update_outputs_phase_msk (s : State) :
    (update_outputs s).phase_msk = s.phase_msk := by
  rw [update_outputs_eq]

@[simp] theorem update_outputs_phase_seq (s : State) :
    (update_outputs s).phase_seq = s.phase_seq := by
  rw [update_outputs_eq]

@[simp] theorem update_outputs_fan_mode (s : State) :
    (update_outputs s).fan_mode = s.fan_mode := by
  rw [update_outputs_eq]

@[simp] theorem update_outputs_t_freq (s : State) :
    (update_outputs s).t_freq = s.t_freq := by
  rw [update_outputs_eq]

@[simp] theorem update_outputs_t_phase (s : State) :
    (update_outputs s).t_phase = s.t_phase := by
  rw [update_outputs_eq]

@[simp] theorem update_outputs_t_seq (s : State) :
    (update_outputs s).t_seq = s.t_seq := by
  rw [update_outputs_eq]

@[simp] theorem update_outputs_t_fan (s : State) :
    (update_outputs s).t_fan = s.t_fan := by
  rw [update_outputs_eq]

@[simp] theorem update_outputs_fault_flag (s : State) :
    (update_outputs s).fault_flag = s.fault_flag := by
  rw [update_outputs_eq]

@[simp] theorem update_outputs_phase_cursor (s : State) :
    (update_outputs s).phase_cursor = s.phase_cursor := by
  rw [update_outputs_eq]

@[simp] theorem update_outputs_sel_prev (s : State) :
    (update_outputs s).sel_prev = s.sel_prev := by
  rw [update_outputs_eq]

@[simp] theorem update_outputs_sel_time (s : State) :
    (update_outputs s).sel_time = s.sel_time := by
  rw [update_outputs_eq]

@[simp] theorem update_outputs_commits (s : State) :
    (update_outputs s).commits = s.commits := by
  rw [update_outputs_eq]

@[simp] theorem commit_temp_values_ui_mode (s : State) :
    (commit_temp_values s).ui_mode = s.ui_mode := by
  rw [commit_temp_values_eq]

@[simp] theorem commit_temp_values_last_mode (s : State) :
    (commit_temp_values s).last_mode = s.last_mode := by
  rw [commit_temp_values_eq]

@[simp] theorem commit_temp_values_cfgIndex (s : State) :
    (commit_temp_values s).cfgIndex = s.cfgIndex := by
  rw [commit_temp_values_eq]

@[simp] theorem commit_temp_values_cfg_sub (s : State) :
    (commit_temp_values s).cfg_sub = s.cfg_sub := by
  rw [commit_temp_values_eq]

@[simp] theorem commit_temp_values_freq_hz (s : State) :
    (commit_temp_values s).freq_hz = s.t_freq := by
  rw [commit_temp_values_eq]

@[simp] theorem commit_temp_values_phase_msk (s : State) :
    (commit_temp_values s).phase_msk = s.t_phase := by
  rw [commit_temp_values_eq]

@[simp] theorem commit_temp_values_phase_seq (s : State) :
    (commit_temp_values s).phase_seq = s.t_seq := by
  rw [commit_temp_values_eq]

@[simp] theorem commit_temp_values_fan_mode (s : State) :
    (commit_temp_values s).fan_mode = if s.t_fan then FAN_ON else FAN_OFF := by
  rw [commit_temp_values_eq]

@[simp] theorem commit_temp_values_t_freq (s : State) :
    (commit_temp_values s).t_freq = s.t_freq := by
  rw [commit_temp_values_eq]

@[simp] theorem commit_temp_values_t_phase (s : State) :
    (commit_temp_values s).t_phase = s.t_phase := by
  rw [commit_temp_values_eq]

@[simp] theorem commit_temp_values_t_seq (s : State) :
    (commit_temp_values s).t_seq = s.t_seq := by
  rw [commit_temp_values_eq]

@[simp] theorem commit_temp_values_t_fan (s : State) :
    (commit_temp_values s).t_fan = s.t_fan := by
  rw [commit_temp_values_eq]

@[simp] theorem commit_temp_values_fault_flag (s : State) :
    (commit_temp_values s).fault_flag = s.fault_flag := by
  rw [commit_temp_values_eq]

@[simp] theorem commit_temp_values_phase_cursor (s : State) :
    (commit_temp_values s).phase_cursor = s.phase_cursor := by
  rw [commit_temp_values_eq]

@[simp] theorem commit_temp_values_sel_prev (s : State) :
    (commit_temp_values s).sel_prev = s.sel_prev := by
  rw [commit_temp_values_eq]

@[simp] theorem commit_temp_values_sel_time (s : State) :
    (commit_temp_values s).sel_time = s.sel_time := by
  rw [commit_temp_values_eq]

@[simp] theorem commit_temp_values_commits (s : State) :
    (commit_temp_values s).commits = s.commits + 1 := by
  rw [commit_temp_values_eq]

/-! ## Commit -/

theorem OnlyByCommit.refl (s : State) : OnlyByCommit s s := ⟨le_refl _, fun _ => rfl⟩

theorem OnlyByCommit.trans {a b c : State} (h1 : OnlyByCommit a b) (h2 : OnlyByCommit b c) :
    OnlyByCommit a c := by
  refine ⟨le_trans h1.1 h2.1, fun h => ?_⟩
  have hb : b.commits = a.commits := le_antisymm (h ▸ h2.1) h1.1
  rw [h2.2 (by omega), h1.2 hb]

theorem page_cycling_onlyByCommit (s : State) (b : Buttons) :
    OnlyByCommit s (page_cycling s b) := by
  unfold page_cycling
  split_ifs <;> simp [OnlyByCommit, committed]

theorem browse_buttons_onlyByCommit (s : State) (b : Buttons) :
    OnlyByCommit s (browse_buttons s b) := by
  rcases b with ⟨back, fwd, up, down, sel, st, sr⟩
  cases up <;> cases down <;> cases sel <;> simp [browse_buttons, OnlyByCommit, committed]

theorem adjust_phase_onlyByCommit (s : State) (b : Buttons) :
    OnlyByCommit s (adjust_phase s b) := by
  rcases b with ⟨back, fwd, up, down, sel, st, sr⟩
  cases up <;> cases down <;> cases st <;> cases sr <;> cases hp : s.sel_prev <;>
    simp [adjust_phase, OnlyByCommit, committed, hp]

theorem adjust_item_onlyByCommit (s : State) (b : Buttons) :
    OnlyByCommit s (adjust_item s b) := by
  unfold adjust_item
  split
  · rcases b with ⟨back, fwd, up, down, sel, st, sr⟩
    cases up <;> cases down <;> simp [OnlyByCommit, committed]
  · exact adjust_phase_onlyByCommit s b
  · split_ifs <;> simp [OnlyByCommit, committed]
  · split_ifs <;> simp [OnlyByCommit, committed]
  · exact OnlyByCommit.refl s

theorem commit_onlyByCommit (s : State) :
    OnlyByCommit s { commit_temp_values s with cfg_sub := CFG_BROWSE } := by
  rw [commit_temp_values_eq]
  simp [OnlyByCommit]

theorem long_press_onlyByCommit (s : State) (i : Input) :
    OnlyByCommit s (long_press s i) := by
  rcases i with ⟨⟨back, fwd, up, down, sel, st, sr⟩, now⟩
  cases sel <;> cases hp : s.sel_prev <;>
    simp [long_press, OnlyByCommit, committed, hp, commit_temp_values_eq]
  split_ifs <;> simp

theorem adjust_buttons_onlyByCommit (s : State) (i : Input) :
    OnlyByCommit s (adjust_buttons s i) := by
  unfold adjust_buttons
  split_ifs
  · exact commit_onlyByCommit s
  · exact (adjust_item_onlyByCommit s i.btn).trans (long_press_onlyByCommit _ i)

theorem handle_buttons_onlyByCommit (s : State) (i : Input) :
    OnlyByCommit s (handle_buttons s i) := by
  unfold handle_buttons
  refine (page_cycling_onlyByCommit s i.btn).trans ?_
  simp only
  split_ifs
  · exact browse_buttons_onlyByCommit _ _
  · exact adjust_buttons_onlyByCommit _ _
  · exact OnlyByCommit.refl _

theorem mode_change_check_onlyByCommit (s : State) :
    OnlyByCommit s (mode_change_check s) := by
  unfold mode_change_check
  simp only [commit_temp_values_eq]
  split_ifs <;> simp [OnlyByCommit, committed]

theorem refresh_indicators_onlyByCommit (s : State) :
    OnlyByCommit s (refresh_indicators s) := by
  rw [refresh_indicators_eq]
  simp [OnlyByCommit, committed]

theorem loop_step_onlyByCommit (s : State) (i : Input) :
    OnlyByCommit s (loop_step s i) :=
  ((handle_buttons_onlyByCommit s i).trans (mode_change_check_onlyByCommit _)).trans
    (refresh_indicators_onlyByCommit _)

theorem run_onlyByCommit (inputs : List Input) :
    ∀ s : State, OnlyByCommit s (run s inputs) := by
  induction inputs with
  | nil => intro s; exact OnlyByCommit.refl s
  | cons i rest ih => intro s; exact (loop_step_onlyByCommit s i).trans (ih _)

/-! ## Entry into the branches of `handle_buttons` and of the loop body -/

theorem handle_buttons_of_adjust (s : State) (i : Input)
    (hm : s.ui_mode = MODE_CONFIG) (hs : s.cfg_sub = CFG_ADJUST) :
    handle_buttons s i = adjust_buttons s i := by
  simp [handle_buttons, page_cycling, hm, hs]

theorem handle_buttons_of_browse (s : State) (i : Input)
    (hm : s.ui_mode = MODE_CONFIG) (hs : s.cfg_sub = CFG_BROWSE)
    (hb : i.btn.back = false) (hf : i.btn.fwd = false) :
    handle_buttons s i = browse_buttons s i.btn := by
  simp [handle_buttons, page_cycling, hm, hs, hb, hf]

theorem handle_buttons_of_adjust_off_page (s : State) (i : Input)
    (hm : s.ui_mode ≠ MODE_CONFIG) (hs : s.cfg_sub = CFG_ADJUST) :
    handle_buttons s i = s := by
  simp [handle_buttons, page_cycling, hm, hs]

theorem adjust_buttons_ui_mode (s : State) (i : Input) :
    (adjust_buttons s i).ui_mode = s.ui_mode := by
  unfold adjust_buttons
  split_ifs <;> simp

theorem adjust_buttons_cfgIndex (s : State) (i : Input) :
    (adjust_buttons s i).cfgIndex = s.cfgIndex := by
  unfold adjust_buttons
  split_ifs <;> simp

theorem handle_buttons_ui_mode_of_adjust (s : State) (i : Input)
    (hs : s.cfg_sub = CFG_ADJUST) : (handle_buttons s i).ui_mode = s.ui_mode := by
  by_cases hm : s.ui_mode = MODE_CONFIG
  · rw [handle_buttons_of_adjust s i hm hs, adjust_buttons_ui_mode]
  · rw [handle_buttons_of_adjust_off_page s i hm hs]

theorem loop_step_ui_mode (s : State) (i : Input) :
    (loop_step s i).ui_mode = (handle_buttons s i).ui_mode := by
  simp [loop_step]

theorem loop_step_cfgIndex (s : State) (i : Input) :
    (loop_step s i).cfgIndex = (handle_buttons s i).cfgIndex := by
  simp [loop_step]

theorem mode_change_check_of_config (s : State) (h : s.ui_mode = MODE_CONFIG) :
    mode_change_check s = { s with last_mode := MODE_CONFIG } := by
  simp [mode_change_check, h]

theorem loop_step_of_adjust (s : State) (i : Input)
    (hm : s.ui_mode = MODE_CONFIG) (hs : s.cfg_sub = CFG_ADJUST) :
    loop_step s i =
      refresh_indicators { adjust_buttons s i with last_mode := MODE_CONFIG } := by
  have h : (adjust_buttons s i).ui_mode = MODE_CONFIG := by
    rw [adjust_buttons_ui_mode, hm]
  rw [loop_step, handle_buttons_of_adjust s i hm hs, mode_change_check_of_config _ h]

theorem loop_step_of_browse (s : State) (i : Input)
    (hm : s.ui_mode = MODE_CONFIG) (hs : s.cfg_sub = CFG_BROWSE)
    (hb : i.btn.back = false) (hf : i.btn.fwd = false) :
    loop_step s i =
      refresh_indicators { browse_buttons s i.btn with last_mode := MODE_CONFIG } := by
  have h : (browse_buttons s i.btn).ui_mode = MODE_CONFIG := by
    rw [browse_buttons_ui_mode, hm]
  rw [loop_step, handle_buttons_of_browse s i hm hs hb hf, mode_change_check_of_config _ h]

/-! ## Commit: copy correctness -/

theorem commit_temp_values_pins (s : State) :
    (commit_temp_values s).pins = fun p =>
      if p = PIN_FAN_CTL then s.t_fan
      else if p = PIN_PHASE_SEQUENCE then s.t_seq != 0
      else if p = PIN_WAVE_FREQ_SELECT then s.t_freq == 60
      else if p = PIN_PHASE_SEL_C then (s.t_phase &&& 0x04) != 0
      else if p = PIN_PHASE_SEL_B then (s.t_phase &&& 0x02) != 0
      else if p = PIN_PHASE_SEL_A then (s.t_phase &&& 0x01) != 0
      else if p = PIN_LED_PHASE_C then (s.t_phase &&& 0x04) != 0
      else if p = PIN_LED_PHASE_B then (s.t_phase &&& 0x02) != 0
      else if p = PIN_LED_PHASE_A then (s.t_phase &&& 0x01) != 0
      else s.pins p := by
  have hf : ((if s.t_fan then FAN_ON else FAN_OFF) == FAN_ON) = s.t_fan := by
    cases s.t_fan <;> rfl
  show (update_outputs (copied s)).pins = _
  rw [update_outputs_pins]
  simp only [copied, hf]

theorem update_outputs_pins_idem (s : State) :
    (update_outputs (update_outputs s)).pins = (update_outputs s).pins := by
  funext p
  rw [update_outputs_pins (update_outputs s)]
  simp only [update_outputs_fan_mode, update_outputs_phase_seq, update_outputs_freq_hz,
    update_outputs_phase_msk]
  rw [update_outputs_pins s]
  simp only
  split_ifs <;> rfl

theorem commit_temp_values_writes (s : State) :
    (commit_temp_values s).writes = s.writes ++ output_writes (commit_temp_values s) := by
  rw [commit_temp_values_eq]
  simp [output_writes, copied]

/-- Claim C2: `commit_temp_values` makes the committed settings equal, field for
field, to the edit buffer, leaves the edit buffer unchanged, and performs the
nine output writes of `update_outputs` exactly once, with the levels that the
new committed settings map to; and over any run of the poll loop the committed
settings are unchanged unless `commit_temp_values` has been called. -/
theorem C2_commit_copies_edit_buffer (s : State) :
    (commit_temp_values s).freq_hz = s.t_freq ∧
    (commit_temp_values s).phase_msk = s.t_phase ∧
    (commit_temp_values s).phase_seq = s.t_seq ∧
    ((commit_temp_values s).fan_mode = FAN_ON ↔ s.t_fan = true) ∧
    ((commit_temp_values s).t_freq = s.t_freq ∧ (commit_temp_values s).t_phase = s.t_phase ∧
      (commit_temp_values s).t_seq = s.t_seq ∧ (commit_temp_values s).t_fan = s.t_fan) ∧
    (commit_temp_values s).writes = s.writes ++ output_writes (commit_temp_values s) ∧
    (commit_temp_values s).pins = (update_outputs (commit_temp_values s)).pins ∧
    (commit_temp_values s).commits = s.commits + 1 ∧
    (∀ inputs : List Input, s.commits ≤ (run s inputs).commits ∧
      ((run s inputs).commits = s.commits → committed (run s inputs) = committed s)) := by
  refine ⟨by simp, by simp, by simp, ?_, by simp, commit_temp_values_writes s, ?_, by simp,
    fun inputs => run_onlyByCommit inputs s⟩
  · cases h : s.t_fan <;> simp [h]
  · exact (update_outputs_pins_idem _).symm

/-! ## Transitions of the configuration page -/

theorem begin_edit_step (s : State) (i : Input)
    (hm : s.ui_mode = MODE_CONFIG) (hs : s.cfg_sub = CFG_BROWSE) (hb : i.btn = only_sel) :
    (loop_step s i).ui_mode = MODE_CONFIG ∧
    (loop_step s i).cfg_sub = CFG_ADJUST ∧
    (loop_step s i).cfgIndex = s.cfgIndex ∧
    committed (loop_step s i) = committed s ∧
    edit_buffer (loop_step s i) = committed s ∧
    (loop_step s i).phase_cursor = 0 ∧
    (loop_step s i).sel_prev = s.sel_prev ∧
    (loop_step s i).sel_time = s.sel_time ∧
    (loop_step s i).commits = s.commits := by
  rw [loop_step_of_browse s i hm hs (by rw [hb]; rfl) (by rw [hb]; rfl), hb]
  cases hf : s.fan_mode <;>
    simp [browse_buttons, only_sel, committed, edit_buffer, hm, hf]

theorem confirm_step (s : State) (i : Input)
    (hm : s.ui_mode = MODE_CONFIG) (hs : s.cfg_sub = CFG_ADJUST)
    (hb : i.btn.back = true ∨ i.btn.fwd = true) :
    (loop_step s i).ui_mode = MODE_CONFIG ∧
    (loop_step s i).cfg_sub = CFG_BROWSE ∧
    (loop_step s i).cfgIndex = s.cfgIndex ∧
    committed (loop_step s i) = edit_buffer s ∧
    edit_buffer (loop_step s i) = edit_buffer s ∧
    (loop_step s i).commits = s.commits + 1 := by
  have hc : (i.btn.back || i.btn.fwd) = true := by
    rcases hb with h | h <;> simp [h]
  rw [loop_step_of_adjust s i hm hs]
  simp [adjust_buttons, hc, committed, edit_buffer, hm]

/-- Claim C3: in CONFIG / BROWSING, a cycle with only SEL high (begin edit)
followed by a cycle with BACK or FWD high (confirm) leaves the committed
settings as they were, and ends in BROWSING with the same mode and item. -/
theorem C3_begin_edit_then_confirm (s : State) (i1 i2 : Input)
    (hm : s.ui_mode = MODE_CONFIG) (hs : s.cfg_sub = CFG_BROWSE)
    (h1 : i1.btn = only_sel) (h2 : i2.btn.back = true ∨ i2.btn.fwd = true) :
    (run s [i1]).cfg_sub = CFG_ADJUST ∧
    committed (run s [i1, i2]) = committed s ∧
    (run s [i1, i2]).cfg_sub = CFG_BROWSE ∧
    (run s [i1, i2]).ui_mode = s.ui_mode ∧
    (run s [i1, i2]).cfgIndex = s.cfgIndex := by
  obtain ⟨a1, a2, a3, _, a5, _⟩ := begin_edit_step s i1 hm hs h1
  obtain ⟨b1, b2, b3, b4, _⟩ := confirm_step (loop_step s i1) i2 a1 a2 h2
  simp only [run]
  exact ⟨a2, by rw [b4, a5], b2, by rw [b1, hm], by rw [b3, a3]⟩

theorem C3_begin_edit_then_confirm_witness :
    (run config_page_state [⟨only_sel, 2000000⟩]).cfg_sub = CFG_ADJUST ∧
    committed (run config_page_state [⟨only_sel, 2000000⟩, ⟨only_back, 3000000⟩]) =
      committed config_page_state ∧
    (run config_page_state [⟨only_sel, 2000000⟩, ⟨only_back, 3000000⟩]).cfg_sub
      = CFG_BROWSE ∧
    (run config_page_state [⟨only_sel, 2000000⟩, ⟨only_back, 3000000⟩]).ui_mode
      = config_page_state.ui_mode ∧
    (run config_page_state [⟨only_sel, 2000000⟩, ⟨only_back, 3000000⟩]).cfgIndex
      = config_page_state.cfgIndex :=
  C3_begin_edit_then_confirm config_page_state ⟨only_sel, 2000000⟩ ⟨only_back, 3000000⟩
    (by decide) (by decide) rfl (Or.inl rfl)

/-! ## Mode navigation is disabled while editing -/

theorem loop_step_ui_mode_of_adjust (s : State) (i : Input) (hs : s.cfg_sub = CFG_ADJUST) :
    (loop_step s i).ui_mode = s.ui_mode := by
  rw [loop_step_ui_mode, handle_buttons_ui_mode_of_adjust s i hs]

theorem run_ui_mode_of_stays_editing (inputs : List Input) :
    ∀ s : State, stays_editing s inputs = true → (run s inputs).ui_mode = s.ui_mode := by
  induction inputs with
  | nil => intro s _; rfl
  | cons i rest ih =>
    intro s h
    simp only [stays_editing, Bool.and_eq_true, decide_eq_true_eq] at h
    rw [run, ih _ h.2, loop_step_ui_mode_of_adjust s i h.1]

/-- Claim C4: in the adjust sub-state one call of `handle_buttons` (and one whole
poll cycle) leaves `ui_mode` unchanged for every button combination and clock
value; so a run whose cycles all start in the adjust sub-state never changes
`ui_mode`; and on the CONFIG page a cycle with BACK or FWD high commits the edit
buffer and returns to browsing. -/
theorem C4_no_mode_change_while_editing (s : State) (hs : s.cfg_sub = CFG_ADJUST) :
    (∀ i : Input, (handle_buttons s i).ui_mode = s.ui_mode) ∧
    (∀ i : Input, (loop_step s i).ui_mode = s.ui_mode) ∧
    (∀ inputs : List Input, stays_editing s inputs = true →
      (run s inputs).ui_mode = s.ui_mode) ∧
    (∀ i : Input, s.ui_mode = MODE_CONFIG → (i.btn.back = true ∨ i.btn.fwd = true) →
      (handle_buttons s i).cfg_sub = CFG_BROWSE ∧
      committed (handle_buttons s i) = edit_buffer s ∧
      (handle_buttons s i).commits = s.commits + 1) := by
  refine ⟨fun i => handle_buttons_ui_mode_of_adjust s i hs,
    fun i => loop_step_ui_mode_of_adjust s i hs,
    fun inputs h => run_ui_mode_of_stays_editing inputs s h, ?_⟩
  intro i hm hb
  have hc : (i.btn.back || i.btn.fwd) = true := by
    rcases hb with h | h <;> simp [h]
  rw [handle_buttons_of_adjust s i hm hs]
  simp [adjust_buttons, hc, committed, edit_buffer]

theorem C4_no_mode_change_while_editing_witness :
    (handle_buttons editing_freq_state ⟨only_fwd, 4000000⟩).ui_mode = MODE_CONFIG ∧
    (run editing_freq_state
      [⟨only_up, 4000000⟩, ⟨only_back, 5000000⟩]).ui_mode = MODE_CONFIG ∧
    (handle_buttons editing_freq_state ⟨only_fwd, 4000000⟩).cfg_sub = CFG_BROWSE :=
  have h := C4_no_mode_change_while_editing editing_freq_state (by decide)
  ⟨h.1 _, h.2.2.1 [⟨only_up, 4000000⟩, ⟨only_back, 5000000⟩] (by decide),
    (h.2.2.2 ⟨only_fwd, 4000000⟩ (by decide) (Or.inr rfl)).1⟩

/-! ## Press-duration arithmetic -/

theorem wrapSigned_64_of_range (x : Int) (h0 : 0 ≤ x) (h1 : x < 9223372036854775808) :
    wrapSigned 64 x = x := by
  unfold wrapSigned
  norm_num
  have : x % 18446744073709551616 = x := by omega
  rw [this]
  simp [h1]

theorem wrapSigned_32_of_range (x : Int) (h0 : 0 ≤ x) (h1 : x < 2147483648) :
    wrapSigned 32 x = x := by
  unfold wrapSigned
  norm_num
  have : x % 4294967296 = x := by omega
  rw [this]
  simp [h1]

theorem held_ms_eq (t1 t2 : Nat) (hmono : t1 ≤ t2) (hr : t2 - t1 < 2147483648000) :
    held_ms t1 t2 = ((t2 - t1 : Nat) : Int) / 1000 := by
  unfold held_ms absolute_time_diff_us
  have e : ((t2 : Int) - (t1 : Int)) = ((t2 - t1 : Nat) : Int) := by omega
  rw [e, wrapSigned_64_of_range _ (by omega) (by omega),
    Int.tdiv_eq_ediv (by omega) (by norm_num), wrapSigned_32_of_range _ (by omega) (by omega)]

theorem held_ms_ge_iff (t1 t2 : Nat) (hmono : t1 ≤ t2) (hr : t2 - t1 < 2147483648000) :
    held_ms t1 t2 ≥ 600 ↔ 600000 ≤ t2 - t1 := by
  rw [held_ms_eq t1 t2 hmono hr]
  omega

/-! ## The adjust branch, cycle by cycle -/

theorem adjust_item_sel_prev_of_not_phase (s : State) (b : Buttons)
    (h : s.cfgIndex ≠ CONFIG_PHASE) : (adjust_item s b).sel_prev = s.sel_prev := by
  rcases b with ⟨back, fwd, up, down, sel, st, sr⟩
  unfold adjust_item
  split
  · cases up <;> cases down <;> rfl
  · rename_i h1
    exact absurd h1 h
  · split_ifs <;> rfl
  · split_ifs <;> rfl
  · rfl

theorem adjust_item_of_idle (s : State) (b : Buttons) (h : s.cfgIndex ≠ CONFIG_PHASE)
    (hu : b.up = false) (hd : b.down = false) : adjust_item s b = s := by
  unfold adjust_item
  split
  · simp [hu, hd]
  · rename_i h1
    exact absurd h1 h
  · simp [hu, hd]
  · simp [hu, hd]
  · rfl

theorem long_press_of_press (a : State) (i : Input)
    (h1 : i.btn.sel = true) (h2 : a.sel_prev = false) :
    long_press a i = { a with sel_time := i.now, sel_prev := true } := by
  simp [long_press, h1, h2]

theorem long_press_of_hold (a : State) (i : Input)
    (h1 : i.btn.sel = true) (h2 : a.sel_prev = true) :
    long_press a i = { a with sel_prev := true } := by
  simp [long_press, h1, h2]

theorem long_press_of_idle (a : State) (i : Input)
    (h1 : i.btn.sel = false) (h2 : a.sel_prev = false) :
    long_press a i = { a with sel_prev := false } := by
  simp [long_press, h1, h2]

theorem long_press_of_long_release (a : State) (i : Input)
    (h1 : i.btn.sel = false) (h2 : a.sel_prev = true) (h3 : held_ms a.sel_time i.now ≥ 600) :
    long_press a i = { commit_temp_values a with cfg_sub := CFG_BROWSE, sel_prev := false } := by
  simp [long_press, h1, h2, h3]

theorem long_press_of_short_release (a : State) (i : Input)
    (h1 : i.btn.sel = false) (h2 : a.sel_prev = true)
    (h3 : ¬ held_ms a.sel_time i.now ≥ 600) :
    long_press a i = { a with sel_prev := false } := by
  have h4 : (600 ≤ held_ms a.sel_time i.now) = False := eq_false h3
  simp [long_press, h1, h2, h4]

theorem loop_step_adjusting (s : State) (i : Input)
    (hm : s.ui_mode = MODE_CONFIG) (hs : s.cfg_sub = CFG_ADJUST)
    (hb : i.btn.back = false) (hf : i.btn.fwd = false) :
    loop_step s i =
      refresh_indicators
        { long_press (adjust_item s i.btn) i with last_mode := MODE_CONFIG } := by
  rw [loop_step_of_adjust s i hm hs]
  simp [adjust_buttons, hb, hf]

theorem sel_held_iff (i : Input) :
    sel_held i = true ↔ i.btn.sel = true ∧ i.btn.back = false ∧ i.btn.fwd = false := by
  rcases i with ⟨⟨back, fwd, up, down, sel, st, sr⟩, now⟩
  cases back <;> cases fwd <;> cases sel <;> simp [sel_held]

theorem sel_released_iff (i : Input) :
    sel_released i = true ↔
      i.btn.sel = false ∧ i.btn.back = false ∧ i.btn.fwd = false := by
  rcases i with ⟨⟨back, fwd, up, down, sel, st, sr⟩, now⟩
  cases back <;> cases fwd <;> cases sel <;> simp [sel_released]

theorem press_step (s : State) (i : Input)
    (hm : s.ui_mode = MODE_CONFIG) (hs : s.cfg_sub = CFG_ADJUST) (hp : s.sel_prev = false)
    (hitem : s.cfgIndex ≠ CONFIG_PHASE) (hi : sel_held i = true) :
    Holding s i.now (loop_step s i) := by
  obtain ⟨h1, h2, h3⟩ := (sel_held_iff i).1 hi
  have ha : (adjust_item s i.btn).sel_prev = false := by
    rw [adjust_item_sel_prev_of_not_phase s i.btn hitem, hp]
  rw [loop_step_adjusting s i hm hs h2 h3, long_press_of_press _ i h1 ha]
  simp [Holding, committed, hm, hs]

theorem hold_step (s0 s : State) (t1 : Nat) (i : Input) (h : Holding s0 t1 s)
    (hitem : s0.cfgIndex ≠ CONFIG_PHASE) (hi : sel_held i = true) :
    Holding s0 t1 (loop_step s i) := by
  obtain ⟨hm, hs, hp, ht, hx, hc, hn⟩ := h
  obtain ⟨h1, h2, h3⟩ := (sel_held_iff i).1 hi
  have ha : (adjust_item s i.btn).sel_prev = true := by
    rw [adjust_item_sel_prev_of_not_phase s i.btn (hx ▸ hitem), hp]
  rw [loop_step_adjusting s i hm hs h2 h3, long_press_of_hold _ i h1 ha]
  simp only [committed, Prod.mk.injEq] at hc
  simp [Holding, committed, hm, hs, ht, hx, hc, hn]

theorem run_cons (s : State) (i : Input) (rest : List Input) :
    run s (i :: rest) = run (loop_step s i) rest := by
  rw [run]

theorem run_nil (s : State) : run s [] = s := by
  rw [run]

theorem run_append (xs ys : List Input) :
    ∀ s : State, run s (xs ++ ys) = run (run s xs) ys := by
  induction xs with
  | nil => intro s; rfl
  | cons i rest ih => intro s; exact ih _

theorem long_release_step (s0 s : State) (t1 : Nat) (i : Input) (h : Holding s0 t1 s)
    (hitem : s0.cfgIndex ≠ CONFIG_PHASE) (hi : sel_released i = true)
    (hlong : held_ms t1 i.now ≥ 600) :
    (loop_step s i).cfg_sub = CFG_BROWSE ∧
    (loop_step s i).commits = s0.commits + 1 ∧
    committed (loop_step s i) = edit_buffer (loop_step s i) ∧
    edit_buffer (loop_step s i) = edit_buffer (adjust_item s i.btn) := by
  obtain ⟨hm, hs, hp, ht, hx, hc, hn⟩ := h
  obtain ⟨h1, h2, h3⟩ := (sel_released_iff i).1 hi
  have ha : (adjust_item s i.btn).sel_prev = true := by
    rw [adjust_item_sel_prev_of_not_phase s i.btn (hx ▸ hitem), hp]
  have hl : held_ms (adjust_item s i.btn).sel_time i.now ≥ 600 := by
    rw [adjust_item_sel_time, ht]; exact hlong
  rw [loop_step_adjusting s i hm hs h2 h3, long_press_of_long_release _ i h1 ha hl]
  simp [committed, edit_buffer, hn]

theorem adjust_item_of_phase (s : State) (b : Buttons) (h : s.cfgIndex = CONFIG_PHASE) :
    adjust_item s b = adjust_phase s b := by
  simp [adjust_item, h]

theorem adjust_phase_sel_prev (s : State) (b : Buttons)
    (h1 : b.sel_toggle = b.sel) (h2 : b.sel_recheck = b.sel) :
    (adjust_phase s b).sel_prev = b.sel := by
  rcases b with ⟨back, fwd, up, down, sel, st, sr⟩
  simp only at h1 h2
  subst h1 h2
  cases up <;> cases down <;> cases sr <;> cases hp : s.sel_prev <;>
    simp [adjust_phase, hp]

theorem phase_cycle_frame (s : State) (i : Input)
    (hm : s.ui_mode = MODE_CONFIG) (hs : s.cfg_sub = CFG_ADJUST)
    (hitem : s.cfgIndex = CONFIG_PHASE)
    (hb : i.btn.back = false) (hf : i.btn.fwd = false)
    (h1 : i.btn.sel_toggle = i.btn.sel) (h2 : i.btn.sel_recheck = i.btn.sel) :
    (loop_step s i).ui_mode = MODE_CONFIG ∧ (loop_step s i).cfg_sub = CFG_ADJUST ∧
    (loop_step s i).cfgIndex = CONFIG_PHASE ∧ committed (loop_step s i) = committed s ∧
    (loop_step s i).commits = s.commits := by
  have ha := adjust_phase_sel_prev s i.btn h1 h2
  rw [loop_step_adjusting s i hm hs hb hf, adjust_item_of_phase s _ hitem]
  cases hsel : i.btn.sel
  · rw [long_press_of_idle _ i hsel (by rw [ha, hsel])]
    simp [committed, hm, hs, hitem]
  · rw [long_press_of_hold _ i hsel (by rw [ha, hsel])]
    simp [committed, hm, hs, hitem]

theorem phase_up_step (s0 s : State) (m c : Nat) (p : Bool) (i : Input)
    (h : PhaseEditing s0 s m c p) (hb : i.btn = only_up) :
    PhaseEditing s0 (loop_step s i) m ((c + 1) % 3) false := by
  obtain ⟨hm, hs, hx, h1, h2, h3, h4, h5, h6, h7, h8⟩ := h
  simp only [committed, Prod.mk.injEq] at h7
  have hsel : i.btn.sel = false := by rw [hb]; rfl
  rw [loop_step_adjusting s i hm hs (by rw [hb]; rfl) (by rw [hb]; rfl),
    adjust_item_of_phase s _ hx, hb]
  simp [PhaseEditing, adjust_phase, long_press, only_up, hsel, committed, hm, hs, hx, h1, h2, h3,
    h4, h5, h6, h7, h8]

theorem phase_idle_step (s0 s : State) (m c : Nat) (p : Bool) (i : Input)
    (h : PhaseEditing s0 s m c p) (hb : i.btn = no_buttons) :
    PhaseEditing s0 (loop_step s i) m c false := by
  obtain ⟨hm, hs, hx, h1, h2, h3, h4, h5, h6, h7, h8⟩ := h
  simp only [committed, Prod.mk.injEq] at h7
  have hsel : i.btn.sel = false := by rw [hb]; rfl
  rw [loop_step_adjusting s i hm hs (by rw [hb]; rfl) (by rw [hb]; rfl),
    adjust_item_of_phase s _ hx, hb]
  simp [PhaseEditing, adjust_phase, long_press, no_buttons, hsel, committed, hm, hs, hx, h1, h2,
    h3, h4, h5, h6, h7, h8]

theorem phase_press_step (s0 s : State) (m c : Nat) (i : Input)
    (h : PhaseEditing s0 s m c false) (hb : i.btn = only_sel) :
    PhaseEditing s0 (loop_step s i) ((m ^^^ (1 <<< c)) % 256) c true := by
  obtain ⟨hm, hs, hx, h1, h2, h3, h4, h5, h6, h7, h8⟩ := h
  simp only [committed, Prod.mk.injEq] at h7
  have hsel : i.btn.sel = true := by rw [hb]; rfl
  rw [loop_step_adjusting s i hm hs (by rw [hb]; rfl) (by rw [hb]; rfl),
    adjust_item_of_phase s _ hx, hb]
  simp [PhaseEditing, adjust_phase, long_press, only_sel, hsel, committed, hm, hs, hx, h1, h2,
    h3, h4, h5, h6, h7, h8]

theorem phase_hold_step (s0 s : State) (m c : Nat) (i : Input)
    (h : PhaseEditing s0 s m c true) (hb : i.btn = only_sel) :
    PhaseEditing s0 (loop_step s i) m c true := by
  obtain ⟨hm, hs, hx, h1, h2, h3, h4, h5, h6, h7, h8⟩ := h
  simp only [committed, Prod.mk.injEq] at h7
  have hsel : i.btn.sel = true := by rw [hb]; rfl
  rw [loop_step_adjusting s i hm hs (by rw [hb]; rfl) (by rw [hb]; rfl),
    adjust_item_of_phase s _ hx, hb]
  simp [PhaseEditing, adjust_phase, long_press, only_sel, hsel, committed, hm, hs, hx, h1, h2,
    h3, h4, h5, h6, h7, h8]

theorem phase_hold_run (s0 : State) (m c : Nat) (rest : List Input) :
    ∀ s : State, PhaseEditing s0 s m c true → (∀ i ∈ rest, i.btn = only_sel) →
      PhaseEditing s0 (run s rest) m c true := by
  induction rest with
  | nil => intro s h _; exact h
  | cons i rest ih =>
    intro s h hall
    rw [run_cons]
    exact ih _ (phase_hold_step s0 s m c i h (hall i (List.mem_cons_self _ _)))
      (fun j hj => hall j (List.mem_cons_of_mem _ hj))

theorem one_shiftLeft_lt_256 (c : Nat) (hc : c ≤ 2) : 1 <<< c < 2 ^ 8 := by
  interval_cases c <;> decide

/-- Claim C8: editing PHASE with SEL previously seen released, `n ≥ 1` cycles
with only SEL high change the edit-buffer phase mask to `mask XOR (1 << cursor)`:
the flip happens in the first cycle and is not repeated in the later ones, only
the bit at the cursor changes, and the other edit-buffer fields, the cursor, the
sub-state and the committed settings stay as they were. -/
theorem C8_toggle_edge_triggered (s : State) (first : Input) (rest : List Input)
    (hm : s.ui_mode = MODE_CONFIG) (hs : s.cfg_sub = CFG_ADJUST)
    (hitem : s.cfgIndex = CONFIG_PHASE) (hp : s.sel_prev = false)
    (hc : s.phase_cursor ≤ 2) (hmask : s.t_phase < 256)
    (h1 : first.btn = only_sel) (h2 : ∀ i ∈ rest, i.btn = only_sel) :
    (run s [first]).t_phase = s.t_phase ^^^ (1 <<< s.phase_cursor) ∧
    (run s (first :: rest)).t_phase = s.t_phase ^^^ (1 <<< s.phase_cursor) ∧
    (∀ k : Nat, (run s (first :: rest)).t_phase.testBit k =
      (s.t_phase.testBit k ^^ decide (k = s.phase_cursor))) ∧
    (run s (first :: rest)).t_freq = s.t_freq ∧
    (run s (first :: rest)).t_seq = s.t_seq ∧
    (run s (first :: rest)).t_fan = s.t_fan ∧
    (run s (first :: rest)).phase_cursor = s.phase_cursor ∧
    (run s (first :: rest)).cfg_sub = CFG_ADJUST ∧
    committed (run s (first :: rest)) = committed s := by
  have h0 : PhaseEditing s s s.t_phase s.phase_cursor false :=
    ⟨hm, hs, hitem, rfl, rfl, hp, rfl, rfl, rfl, rfl, rfl⟩
  have hx : (s.t_phase ^^^ (1 <<< s.phase_cursor)) % 256 =
      s.t_phase ^^^ (1 <<< s.phase_cursor) :=
    Nat.mod_eq_of_lt
      (Nat.xor_lt_two_pow (n := 8) hmask (one_shiftLeft_lt_256 _ hc))
  have hstep := phase_press_step s s _ _ first h0 h1
  rw [hx] at hstep
  have hrun := phase_hold_run s _ _ rest _ hstep h2
  rw [run_cons, run_nil, run_cons]
  obtain ⟨_, _, _, a4, _⟩ := hstep
  obtain ⟨_, b2, _, b4, b5, _, b7, b8, b9, b10, _⟩ := hrun
  refine ⟨a4, b4, fun k => ?_, b7, b8, b9, b5, b2, b10⟩
  rw [b4, Nat.testBit_xor, Nat.one_shiftLeft, Nat.testBit_two_pow]
  congr 1
  exact decide_eq_decide.2 eq_comm

theorem C8_toggle_edge_triggered_witness :
    (run editing_phase_state
      [⟨only_sel, 5000000⟩, ⟨only_sel, 5100000⟩, ⟨only_sel, 5200000⟩]).t_phase
      = editing_phase_state.t_phase ^^^ (1 <<< editing_phase_state.phase_cursor) :=
  (C8_toggle_edge_triggered editing_phase_state ⟨only_sel, 5000000⟩
    [⟨only_sel, 5100000⟩, ⟨only_sel, 5200000⟩] (by decide) (by decide) (by decide)
    (by decide) (by decide) (by decide) rfl (by decide)).2.1

/-! ## Pin levels after a poll cycle -/

theorem refresh_indicators_pins (s : State) :
    (refresh_indicators s).pins = fun p =>
      if p = PIN_LED_FAULT then s.fault_flag
      else if p = PIN_LED_CONFIG then decide (s.ui_mode = MODE_CONFIG)
      else if p = PIN_LED_NORMAL then (decide (s.ui_mode ≠ MODE_CONFIG) && !s.fault_flag)
      else if p = PIN_LED_FAN_H then
        ((if s.ui_mode = MODE_CONFIG ∧ s.cfg_sub = CFG_ADJUST
          then (if s.t_fan then 1 else 0) else s.fan_mode.val) == 1)
      else if p = PIN_LED_FAN_M then
        ((if s.ui_mode = MODE_CONFIG ∧ s.cfg_sub = CFG_ADJUST
          then (if s.t_fan then 1 else 0) else s.fan_mode.val) == 1)
      else if p = PIN_LED_FAN_L then
        ((if s.ui_mode = MODE_CONFIG ∧ s.cfg_sub = CFG_ADJUST
          then (if s.t_fan then 1 else 0) else s.fan_mode.val) == 1)
      else if p = PIN_PHASE_SEL_C then (s.phase_msk &&& 0x04) != 0
      else if p = PIN_PHASE_SEL_B then (s.phase_msk &&& 0x02) != 0
      else if p = PIN_PHASE_SEL_A then (s.phase_msk &&& 0x01) != 0
      else if p = PIN_LED_PHASE_C then (s.phase_msk &&& 0x04) != 0
      else if p = PIN_LED_PHASE_B then (s.phase_msk &&& 0x02) != 0
      else if p = PIN_LED_PHASE_A then (s.phase_msk &&& 0x01) != 0
      else s.pins p := by
  simp only [refresh_indicators, update_phase_leds, update_phase_selects, update_fan_leds,
    io_set, gpio_put]

theorem loop_step_phase_pins (s : State) (i : Input) :
    (loop_step s i).pins PIN_LED_PHASE_A = (loop_step s i).phase_msk.testBit 0 ∧
    (loop_step s i).pins PIN_LED_PHASE_B = (loop_step s i).phase_msk.testBit 1 ∧
    (loop_step s i).pins PIN_LED_PHASE_C = (loop_step s i).phase_msk.testBit 2 ∧
    (loop_step s i).pins PIN_PHASE_SEL_A = (loop_step s i).phase_msk.testBit 0 ∧
    (loop_step s i).pins PIN_PHASE_SEL_B = (loop_step s i).phase_msk.testBit 1 ∧
    (loop_step s i).pins PIN_PHASE_SEL_C = (loop_step s i).phase_msk.testBit 2 := by
  unfold loop_step
  rw [refresh_indicators_pins, refresh_indicators_phase_msk]
  refine ⟨?_, ?_, ?_, ?_, ?_, ?_⟩
  · simpa using and_one_ne_zero _
  · simpa using and_two_ne_zero _
  · simpa using and_four_ne_zero _
  · simpa using and_one_ne_zero _
  · simpa using and_two_ne_zero _
  · simpa using and_four_ne_zero _

theorem loop_step_control_pins (s : State) (i : Input) :
    (loop_step s i).pins PIN_WAVE_FREQ_SELECT =
      (mode_change_check (handle_buttons s i)).pins PIN_WAVE_FREQ_SELECT ∧
    (loop_step s i).pins PIN_PHASE_SEQUENCE =
      (mode_change_check (handle_buttons s i)).pins PIN_PHASE_SEQUENCE ∧
    (loop_step s i).pins PIN_FAN_CTL =
      (mode_change_check (handle_buttons s i)).pins PIN_FAN_CTL := by
  unfold loop_step
  rw [refresh_indicators_pins]
  simp

theorem confirm_step_pins (s : State) (i : Input)
    (hm : s.ui_mode = MODE_CONFIG) (hs : s.cfg_sub = CFG_ADJUST)
    (hb : i.btn.back = true ∨ i.btn.fwd = true) :
    (loop_step s i).pins PIN_WAVE_FREQ_SELECT = (s.t_freq == 60) ∧
    (loop_step s i).pins PIN_PHASE_SEQUENCE = (s.t_seq != 0) ∧
    (loop_step s i).pins PIN_FAN_CTL = s.t_fan := by
  have hc : (i.btn.back || i.btn.fwd) = true := by
    rcases hb with h | h <;> simp [h]
  have e : mode_change_check (handle_buttons s i) =
      { commit_temp_values s with cfg_sub := CFG_BROWSE, last_mode := MODE_CONFIG } := by
    rw [handle_buttons_of_adjust s i hm hs]
    simp [adjust_buttons, hc, mode_change_check, hm]
  obtain ⟨a, b, c⟩ := loop_step_control_pins s i
  rw [a, b, c, e]
  simp [commit_temp_values_pins]

/-! ## The two ways of ending an edit session -/

theorem quiet_step_edit_buffer (s : State) (i : Input)
    (hm : s.ui_mode = MODE_CONFIG) (hs : s.cfg_sub = CFG_ADJUST)
    (hitem : s.cfgIndex ≠ CONFIG_PHASE)
    (hb : i.btn.back = false) (hf : i.btn.fwd = false)
    (hu : i.btn.up = false) (hd : i.btn.down = false) :
    edit_buffer (loop_step s i) = edit_buffer s := by
  rw [loop_step_adjusting s i hm hs hb hf, adjust_item_of_idle s i.btn hitem hu hd]
  simp [edit_buffer]

theorem sel_held_of_only_sel (i : Input) (h : i.btn = only_sel) : sel_held i = true := by
  simp [sel_held, h, only_sel]

theorem sel_released_of_no_buttons (i : Input) (h : i.btn = no_buttons) :
    sel_released i = true := by
  simp [sel_released, h, no_buttons]

theorem quiet_hold_run (s0 : State) (t1 : Nat) (hitem : s0.cfgIndex ≠ CONFIG_PHASE)
    (hold : List Input) :
    ∀ s : State, Holding s0 t1 s → (∀ i ∈ hold, i.btn = only_sel) →
      Holding s0 t1 (run s hold) ∧ edit_buffer (run s hold) = edit_buffer s := by
  induction hold with
  | nil => intro s h _; exact ⟨h, rfl⟩
  | cons i rest ih =>
    intro s h hall
    have hi := hall i (List.mem_cons_self _ _)
    have hstep := hold_step s0 s t1 i h hitem (sel_held_of_only_sel i hi)
    obtain ⟨r1, r2⟩ := ih _ hstep (fun j hj => hall j (List.mem_cons_of_mem _ hj))
    have hq := quiet_step_edit_buffer s i h.1 h.2.1 (h.2.2.2.2.1 ▸ hitem)
      (by rw [hi]; rfl) (by rw [hi]; rfl) (by rw [hi]; rfl) (by rw [hi]; rfl)
    rw [run_cons]
    exact ⟨r1, r2.trans hq⟩

/-- Claim C7, as amended: for every editing state on item FREQ, SEQ or FAN with
SEL previously released, ending the session by a confirm cycle (BACK or FWD
high) and ending it by a press of SEL alone held at least 600 ms and less than
2^31 ms and then released both end in browsing with the same committed
settings, namely the edit buffer as it stood before the ending gesture. -/
theorem C7_confirm_paths_agree (s : State) (confirm press : Input) (hold : List Input)
    (release : Input)
    (hm : s.ui_mode = MODE_CONFIG) (hs : s.cfg_sub = CFG_ADJUST) (hp : s.sel_prev = false)
    (hitem : s.cfgIndex ≠ CONFIG_PHASE)
    (hc : confirm.btn.back = true ∨ confirm.btn.fwd = true)
    (h1 : press.btn = only_sel) (h2 : ∀ i ∈ hold, i.btn = only_sel)
    (h3 : release.btn = no_buttons)
    (hmono : press.now ≤ release.now) (hlong : 600000 ≤ release.now - press.now)
    (hrange : release.now - press.now < 2147483648000) :
    (run s [confirm]).cfg_sub = CFG_BROWSE ∧
    committed (run s [confirm]) = edit_buffer s ∧
    (run s (press :: hold ++ [release])).cfg_sub = CFG_BROWSE ∧
    committed (run s (press :: hold ++ [release])) = edit_buffer s ∧
    committed (run s [confirm]) = committed (run s (press :: hold ++ [release])) := by
  obtain ⟨_, c2, _, c4, _⟩ := confirm_step s confirm hm hs hc
  have hpress := press_step s press hm hs hp hitem (sel_held_of_only_sel press h1)
  have hq1 := quiet_step_edit_buffer s press hm hs hitem
    (by rw [h1]; rfl) (by rw [h1]; rfl) (by rw [h1]; rfl) (by rw [h1]; rfl)
  obtain ⟨hh, hq2⟩ := quiet_hold_run s press.now hitem hold _ hpress h2
  have hl := (held_ms_ge_iff press.now release.now hmono hrange).2 hlong
  obtain ⟨r1, _, r3, r4⟩ := long_release_step s _ press.now release hh hitem
    (sel_released_of_no_buttons release h3) hl
  have hitemH : (run (loop_step s press) hold).cfgIndex ≠ CONFIG_PHASE := by
    rw [hh.2.2.2.2.1]; exact hitem
  rw [adjust_item_of_idle _ release.btn hitemH (by rw [h3]; rfl) (by rw [h3]; rfl)] at r4
  have e : run s (press :: hold ++ [release]) =
      loop_step (run (loop_step s press) hold) release := by
    rw [List.cons_append, run_cons, run_append, run_cons, run_nil]
  have e1 : run s [confirm] = loop_step s confirm := by
    rw [run_cons, run_nil]
  have hfin : committed (loop_step (run (loop_step s press) hold) release) = edit_buffer s := by
    rw [r3, r4, hq2, hq1]
  rw [e, e1]
  exact ⟨c2, c4, r1, hfin, c4.trans hfin.symm⟩

theorem C7_confirm_paths_agree_witness :
    committed (run edited_freq_state [⟨only_fwd, 5000000⟩]) =
      committed (run edited_freq_state
        ([⟨only_sel, 5000000⟩, ⟨only_sel, 5400000⟩] ++ [⟨no_buttons, 5800000⟩])) :=
  (C7_confirm_paths_agree edited_freq_state ⟨only_fwd, 5000000⟩ ⟨only_sel, 5000000⟩
    [⟨only_sel, 5400000⟩] ⟨no_buttons, 5800000⟩ (by decide) (by decide) (by decide)
    (by decide) (Or.inr rfl) rfl (by decide) rfl (by decide) (by decide)
    (by decide)).2.2.2.2

/-- Claim C7 fails as stated, twice.  Editing PHASE with edit mask 0b110 over a
committed mask 0b111, a confirm cycle commits 0b110 and returns to browsing,
while SEL held 800 ms and released flips bit A of the edit buffer back, commits
nothing and stays in the adjust sub-state.  Editing FREQ with edit frequency 50
over committed 60, a confirm cycle commits 50, while SEL held for 2^31 ms and
released commits nothing. -/
theorem C7_confirm_paths_agree_counterexample :
    (edited_phase_state.ui_mode = MODE_CONFIG ∧
      edited_phase_state.cfg_sub = CFG_ADJUST ∧
      edited_phase_state.cfgIndex = CONFIG_PHASE ∧
      edited_phase_state.sel_prev = false ∧
      edit_buffer edited_phase_state = (60, 6, 0, FAN_OFF) ∧
      (run edited_phase_state [⟨only_back, 7000000⟩]).cfg_sub = CFG_BROWSE ∧
      committed (run edited_phase_state [⟨only_back, 7000000⟩]) = (60, 6, 0, FAN_OFF) ∧
      (run edited_phase_state long_sel_press).cfg_sub = CFG_ADJUST ∧
      committed (run edited_phase_state long_sel_press) = (60, 7, 0, FAN_OFF) ∧
      edit_buffer (run edited_phase_state long_sel_press) = (60, 7, 0, FAN_OFF)) ∧
    (edited_freq_state.ui_mode = MODE_CONFIG ∧
      edited_freq_state.cfg_sub = CFG_ADJUST ∧
      edited_freq_state.cfgIndex = CONFIG_FREQ ∧
      edited_freq_state.sel_prev = false ∧
      edit_buffer edited_freq_state = (50, 7, 0, FAN_OFF) ∧
      committed (run edited_freq_state [⟨only_back, 5000000⟩]) = (50, 7, 0, FAN_OFF) ∧
      (run edited_freq_state
        [⟨only_sel, 5000000⟩, ⟨no_buttons, 2147488648000⟩]).cfg_sub = CFG_ADJUST ∧
      committed (run edited_freq_state
        [⟨only_sel, 5000000⟩, ⟨no_buttons, 2147488648000⟩]) = (60, 7, 0, FAN_OFF)) := by
  decide

/-! ## Scenario: switching the frequency to 50 Hz -/

theorem mode_change_check_no_commit (x : State)
    (h : x.ui_mode = MODE_CONFIG ∨ x.cfg_sub = CFG_BROWSE) :
    mode_change_check x = { x with last_mode := x.ui_mode } := by
  rcases h with h | h <;> simp [mode_change_check, h]

theorem handle_buttons_of_browsing (s : State) (i : Input) (hs : s.cfg_sub = CFG_BROWSE) :
    committed (handle_buttons s i) = committed s ∧
    (handle_buttons s i).pins = s.pins ∧
    (handle_buttons s i).commits = s.commits ∧
    ((handle_buttons s i).ui_mode = MODE_CONFIG ∨
      (handle_buttons s i).cfg_sub = CFG_BROWSE) := by
  unfold handle_buttons
  simp only [page_cycling_cfg_sub, hs, if_true]
  by_cases h : (page_cycling s i.btn).ui_mode = MODE_CONFIG
  · simp [h, committed]
  · simp [h, committed, hs]

theorem browse_cycle_frame (s : State) (i : Input) (hs : s.cfg_sub = CFG_BROWSE) :
    committed (loop_step s i) = committed s ∧
    (loop_step s i).commits = s.commits ∧
    (loop_step s i).pins PIN_WAVE_FREQ_SELECT = s.pins PIN_WAVE_FREQ_SELECT ∧
    (loop_step s i).pins PIN_PHASE_SEQUENCE = s.pins PIN_PHASE_SEQUENCE ∧
    (loop_step s i).pins PIN_FAN_CTL = s.pins PIN_FAN_CTL := by
  obtain ⟨h1, h2, h3, h4⟩ := handle_buttons_of_browsing s i hs
  obtain ⟨p1, p2, p3⟩ := loop_step_control_pins s i
  rw [p1, p2, p3]
  unfold loop_step
  rw [mode_change_check_no_commit _ h4]
  simp only [committed, Prod.mk.injEq] at h1
  simp [committed, h1, h2, h3]

theorem adjust_freq_once (s : State) (b : Buttons)
    (hitem : s.cfgIndex = CONFIG_FREQ) (hf : s.t_freq = 60)
    (hb : b = only_up ∨ b = only_down) :
    adjust_item s b = { s with t_freq := 50 } := by
  rcases hb with h | h <;> simp [adjust_item, hitem, h, hf, only_up, only_down]

/-- Claim C9: from committed settings 60 Hz, mask 0b111, ABC, fan off on the
CONFIG page with FREQ selected, a begin-edit cycle followed by a cycle with only
UP or only DOWN high leaves the edit-buffer frequency at 50; after a following
confirm cycle (BACK or FWD high) the committed settings are 50 Hz, 0b111, ABC,
fan off and the frequency-select pin is low. -/
theorem C9_frequency_scenario (s : State) (begin_edit adjust confirm : Input)
    (hm : s.ui_mode = MODE_CONFIG) (hs : s.cfg_sub = CFG_BROWSE)
    (hitem : s.cfgIndex = CONFIG_FREQ) (hc : committed s = (60, 7, 0, FAN_OFF))
    (h1 : begin_edit.btn = only_sel)
    (h2 : adjust.btn = only_up ∨ adjust.btn = only_down)
    (h3 : confirm.btn.back = true ∨ confirm.btn.fwd = true) :
    (run s [begin_edit, adjust]).t_freq = 50 ∧
    committed (run s [begin_edit, adjust, confirm]) = (50, 7, 0, FAN_OFF) ∧
    (run s [begin_edit, adjust, confirm]).pins PIN_WAVE_FREQ_SELECT = false := by
  obtain ⟨a1, a2, a3, a4, a5, _⟩ := begin_edit_step s begin_edit hm hs h1
  rw [hc] at a4 a5
  have hbuf := a5
  simp only [edit_buffer, Prod.mk.injEq] at hbuf
  obtain ⟨b1, b2, b3, b4⟩ := hbuf
  have hcom := a4
  simp only [committed, Prod.mk.injEq] at hcom
  obtain ⟨k1, k2, k3, k4⟩ := hcom
  have hb : adjust.btn.back = false := by rcases h2 with h | h <;> rw [h] <;> rfl
  have hf : adjust.btn.fwd = false := by rcases h2 with h | h <;> rw [h] <;> rfl
  have hsel : adjust.btn.sel = false := by rcases h2 with h | h <;> rw [h] <;> rfl
  have hadj := adjust_freq_once (loop_step s begin_edit) adjust.btn (a3.trans hitem) b1 h2
  have e2 := loop_step_adjusting (loop_step s begin_edit) adjust a1 a2 hb hf
  rw [hadj] at e2
  simp only [run_cons, run_nil]
  by_cases hlp : (loop_step s begin_edit).sel_prev = true ∧
      held_ms (loop_step s begin_edit).sel_time adjust.now ≥ 600
  · -- the adjust cycle sees a release edge of an earlier long press and commits
    rw [long_press_of_long_release { loop_step s begin_edit with t_freq := 50 } adjust hsel
      hlp.1 hlp.2] at e2
    have hsub : (loop_step (loop_step s begin_edit) adjust).cfg_sub = CFG_BROWSE := by
      rw [e2]; simp
    have hcm : committed (loop_step (loop_step s begin_edit) adjust) = (50, 7, 0, FAN_OFF) := by
      rw [e2]; simp [committed, b2, b3, b4]
    have hpin : (loop_step (loop_step s begin_edit) adjust).pins PIN_WAVE_FREQ_SELECT
        = false := by
      rw [e2, refresh_indicators_pins]
      simp [commit_temp_values_pins]
    obtain ⟨f1, _, f3, _⟩ := browse_cycle_frame _ confirm hsub
    refine ⟨by rw [e2]; simp, f1.trans hcm, f3.trans hpin⟩
  · -- the adjust cycle commits nothing
    have e3 : long_press { loop_step s begin_edit with t_freq := 50 } adjust =
        { loop_step s begin_edit with t_freq := 50, sel_prev := false } := by
      cases hp : (loop_step s begin_edit).sel_prev
      · rw [long_press_of_idle { loop_step s begin_edit with t_freq := 50 } adjust hsel hp]
      · have hshort : ¬ held_ms (loop_step s begin_edit).sel_time adjust.now ≥ 600 :=
          fun hge => hlp ⟨hp, hge⟩
        rw [long_press_of_short_release { loop_step s begin_edit with t_freq := 50 } adjust
          hsel hp hshort]
    rw [e3] at e2
    have g1 : (loop_step (loop_step s begin_edit) adjust).ui_mode = MODE_CONFIG := by
      rw [e2]; simp [a1]
    have g2 : (loop_step (loop_step s begin_edit) adjust).cfg_sub = CFG_ADJUST := by
      rw [e2]; simp [a2]
    have g3 : edit_buffer (loop_step (loop_step s begin_edit) adjust)
        = (50, 7, 0, FAN_OFF) := by
      rw [e2]; simp [edit_buffer, b2, b3, b4]
    have g4 : (loop_step (loop_step s begin_edit) adjust).t_freq = 50 := by
      rw [e2]; simp
    obtain ⟨_, _, _, d4, _⟩ := confirm_step _ confirm g1 g2 h3
    obtain ⟨q1, _, _⟩ := confirm_step_pins _ confirm g1 g2 h3
    refine ⟨g4, d4.trans g3, ?_⟩
    rw [q1, g4]
    rfl

theorem C9_frequency_scenario_witness :
    (run config_page_state [⟨only_sel, 2000000⟩, ⟨only_down, 3000000⟩]).t_freq = 50 ∧
    committed (run config_page_state
      [⟨only_sel, 2000000⟩, ⟨only_down, 3000000⟩, ⟨only_fwd, 4000000⟩])
        = (50, 7, 0, FAN_OFF) ∧
    (run config_page_state
      [⟨only_sel, 2000000⟩, ⟨only_down, 3000000⟩, ⟨only_fwd, 4000000⟩]).pins
        PIN_WAVE_FREQ_SELECT = false :=
  C9_frequency_scenario config_page_state ⟨only_sel, 2000000⟩ ⟨only_down, 3000000⟩
    ⟨only_fwd, 4000000⟩ (by decide) (by decide) (by decide) (by decide) rfl (Or.inr rfl)
    (Or.inr rfl)

/-! ## Domain invariant -/

theorem toggle_le (m c : Nat) (hm : m ≤ 7) (hc : c ≤ 2) : (m ^^^ (1 <<< c)) % 256 ≤ 7 := by
  interval_cases m <;> interval_cases c <;> decide

theorem adjust_phase_domain (s : State) (b : Buttons) (h : EditInDomain s) :
    EditInDomain (adjust_phase s b) := by
  obtain ⟨h1, h2, h3, h4⟩ := h
  have c1 : (s.phase_cursor + 1) % 3 ≤ 2 := by omega
  have c2 : (s.phase_cursor + 2) % 3 ≤ 2 := by omega
  have c3 : (s.phase_cursor + 1 + 2) % 3 ≤ 2 := by omega
  rcases b with ⟨back, fwd, up, down, sel, st, sr⟩
  cases up <;> cases down <;> cases st <;> cases sr <;> cases hp : s.sel_prev <;>
    simp [adjust_phase, hp, EditInDomain, h1, h2, h3, h4, c1, c2, c3, toggle_le]

theorem adjust_item_domain (s : State) (b : Buttons) (h : EditInDomain s) :
    EditInDomain (adjust_item s b) := by
  unfold adjust_item
  split
  · obtain ⟨h1, h2, h3, h4⟩ := h
    rcases b with ⟨back, fwd, up, down, sel, st, sr⟩
    cases up <;> cases down <;> simp [EditInDomain, h1, h2, h3, h4] <;> omega
  · exact adjust_phase_domain s b h
  · obtain ⟨h1, h2, h3, h4⟩ := h
    split_ifs
    · refine ⟨h1, h2, ?_, h4⟩
      rcases h3 with h3 | h3 <;> simp [h3]
    · exact ⟨h1, h2, h3, h4⟩
  · obtain ⟨h1, h2, h3, h4⟩ := h
    split_ifs
    · exact ⟨h1, h2, h3, h4⟩
    · exact ⟨h1, h2, h3, h4⟩
  · exact h

theorem commit_domain (s : State) (h : EditInDomain s) :
    CommittedInDomain (commit_temp_values s) := by
  obtain ⟨h1, h2, h3, _⟩ := h
  refine ⟨by simpa using h1, by simpa using h2, by simpa using h3, ?_⟩
  cases hf : s.t_fan <;> simp [hf]

theorem long_press_domain (a : State) (i : Input) (h : DomainInv a)
    (hs : a.cfg_sub = CFG_ADJUST) : DomainInv (long_press a i) := by
  have he := h.2 hs
  obtain ⟨e1, e2, e3, e4⟩ := he
  obtain ⟨k1, k2, k3, k4⟩ := h.1
  have hc := commit_domain a ⟨e1, e2, e3, e4⟩
  simp only [CommittedInDomain, commit_temp_values_freq_hz, commit_temp_values_phase_msk,
    commit_temp_values_phase_seq, commit_temp_values_fan_mode] at hc
  obtain ⟨c1, c2, c3, c4⟩ := hc
  rcases i with ⟨⟨back, fwd, up, down, sel, st, sr⟩, now⟩
  cases sel <;> cases hp : a.sel_prev <;>
    simp [long_press, hp, DomainInv, CommittedInDomain, EditInDomain, k1, k2, k3, k4, e1,
      e2, e3, e4]
  split_ifs <;>
    simp [k1, k2, k3, k4, e1, e2, e3, e4, c1, c2, c3, c4]

theorem adjust_buttons_domain (s : State) (i : Input) (h : DomainInv s)
    (hs : s.cfg_sub = CFG_ADJUST) : DomainInv (adjust_buttons s i) := by
  unfold adjust_buttons
  split_ifs
  · have hc := commit_domain s (h.2 hs)
    refine ⟨?_, fun hadj => ?_⟩
    · simpa [CommittedInDomain] using hc
    · simp at hadj
  · apply long_press_domain _ i _ (by rw [adjust_item_cfg_sub]; exact hs)
    refine ⟨?_, fun _ => adjust_item_domain s i.btn (h.2 hs)⟩
    simpa [CommittedInDomain] using h.1

theorem browse_buttons_domain (s : State) (b : Buttons) (h : DomainInv s)
    (hs : s.cfg_sub = CFG_BROWSE) : DomainInv (browse_buttons s b) := by
  obtain ⟨k1, k2, k3, k4⟩ := h.1
  rcases b with ⟨back, fwd, up, down, sel, st, sr⟩
  cases up <;> cases down <;> cases sel <;>
    simp [browse_buttons, DomainInv, CommittedInDomain, EditInDomain, k1, k2, k3, k4, hs]

theorem page_cycling_domain (s : State) (b : Buttons) (h : DomainInv s) :
    DomainInv (page_cycling s b) := by
  simpa [DomainInv, CommittedInDomain, EditInDomain] using h

theorem handle_buttons_domain (s : State) (i : Input) (h : DomainInv s) :
    DomainInv (handle_buttons s i) := by
  have hp := page_cycling_domain s i.btn h
  unfold handle_buttons
  simp only
  split_ifs with h1 h2
  · exact browse_buttons_domain _ _ hp h2
  · apply adjust_buttons_domain _ _ hp
    cases hc : (page_cycling s i.btn).cfg_sub
    · exact absurd hc h2
    · rfl
  · exact hp

theorem mode_change_check_domain (s : State) (h : DomainInv s) :
    DomainInv (mode_change_check s) := by
  unfold mode_change_check
  simp only
  split_ifs with h1 h2
  · have hc := commit_domain s (h.2 h2)
    refine ⟨?_, fun hadj => ?_⟩
    · simpa [CommittedInDomain] using hc
    · simp at hadj
  · simpa [DomainInv, CommittedInDomain, EditInDomain] using h
  · simpa [DomainInv, CommittedInDomain, EditInDomain] using h

theorem loop_step_domain (s : State) (i : Input) (h : DomainInv s) :
    DomainInv (loop_step s i) := by
  have h1 := mode_change_check_domain _ (handle_buttons_domain s i h)
  unfold loop_step
  simpa [DomainInv, CommittedInDomain, EditInDomain] using h1

theorem init_state_domain : DomainInv init_state := by
  unfold init_state
  simp [DomainInv, CommittedInDomain, EditInDomain, static_init]

theorem run_domain (inputs : List Input) :
    ∀ s : State, DomainInv s → DomainInv (run s inputs) := by
  induction inputs with
  | nil => intro s h; exact h
  | cons i rest ih =>
    intro s h
    rw [run_cons]
    exact ih _ (loop_step_domain s i h)

/-- Claim C10: after any sequence of poll cycles from the initial state, under
any button levels and clock values, `freq_hz` is 50 or 60, `phase_msk ≤ 7`,
`phase_seq` is 0 or 1, `fan_mode` is `FAN_OFF` or `FAN_ON`; and while the
sub-state is `CFG_ADJUST` the edit buffer lies in the same domains and the phase
cursor is at most 2. -/
theorem C10_values_in_domain (inputs : List Input) :
    ((run init_state inputs).freq_hz = 50 ∨ (run init_state inputs).freq_hz = 60) ∧
    (run init_state inputs).phase_msk ≤ 7 ∧
    ((run init_state inputs).phase_seq = 0 ∨ (run init_state inputs).phase_seq = 1) ∧
    ((run init_state inputs).fan_mode = FAN_OFF ∨
      (run init_state inputs).fan_mode = FAN_ON) ∧
    ((run init_state inputs).cfg_sub = CFG_ADJUST →
      ((run init_state inputs).t_freq = 50 ∨ (run init_state inputs).t_freq = 60) ∧
      (run init_state inputs).t_phase ≤ 7 ∧
      ((run init_state inputs).t_seq = 0 ∨ (run init_state inputs).t_seq = 1) ∧
      (run init_state inputs).phase_cursor ≤ 2) := by
  obtain ⟨⟨a, b, c, d⟩, e⟩ := run_domain inputs init_state init_state_domain
  exact ⟨a, b, c, d, e⟩

/-! ## LCD driver: byte-level protocol -/

theorem i2c_write_append (tr : List LcdEvent) (d : Nat) :
    lcd.i2c_write tr d = tr ++ lcd.i2c_write [] d := by
  simp [lcd.i2c_write]

theorem write4_append (tr : List LcdEvent) (nib : Nat) (rs : Bool) :
    lcd.write4 tr nib rs = tr ++ lcd.write4 [] nib rs := by
  simp [lcd.write4, lcd.pulse_en, lcd.i2c_write, lcd.sleep_us]

theorem write8_append (tr : List LcdEvent) (v : Nat) (rs : Bool) :
    lcd.write8 tr v rs = tr ++ lcd.write8 [] v rs := by
  unfold lcd.write8
  simp only
  rw [write4_append (lcd.write4 tr (v >>> 4) rs), write4_append tr,
    write4_append (lcd.write4 [] (v >>> 4) rs), List.append_assoc]

set_option maxRecDepth 100000 in
theorem write8_nil_all :
    ∀ v < 256, ∀ rs : Bool,
      lcd.write8 [] v rs = nibble_events (high_byte v rs) ++ nibble_events (low_byte v rs) ∧
      bus_bytes (lcd.write8 [] v rs) =
        [high_byte v rs, high_byte v rs ||| 0x04, high_byte v rs,
          low_byte v rs, low_byte v rs ||| 0x04, low_byte v rs] ∧
      (high_byte v rs).testBit 3 = true ∧ (low_byte v rs).testBit 3 = true ∧
      (high_byte v rs).testBit 2 = false ∧ (low_byte v rs).testBit 2 = false ∧
      ((high_byte v rs ||| 0x04) &&& 0xF0) ||| ((low_byte v rs ||| 0x04) >>> 4) = v := by
  decide

/-- Claim C12: for every byte `v` and register-select flag `rs`, `lcd::write8`
appends to the trace the high-nibble transaction and then the low-nibble
transaction: bus bytes `h`, `h | 0x04`, `h`, `l`, `l | 0x04`, `l` with
`h = 0x08 | rs | (v & 0xF0)` and `l = 0x08 | rs | ((v & 0x0F) << 4)`, a 50
microsecond wait after the second and the third byte of each nibble; bit 0x08 is
set in all six bytes, bit 0x04 only in the second and the fifth, and `v` is
`(byte2 & 0xF0) | (byte5 >> 4)`. -/
theorem C12_write8_trace (tr : List LcdEvent) (v : Nat) (rs : Bool) (hv : v < 256) :
    lcd.write8 tr v rs =
      tr ++ [LcdEvent.bus (high_byte v rs), LcdEvent.bus (high_byte v rs ||| 0x04),
        LcdEvent.sleep_us 50, LcdEvent.bus (high_byte v rs), LcdEvent.sleep_us 50,
        LcdEvent.bus (low_byte v rs), LcdEvent.bus (low_byte v rs ||| 0x04),
        LcdEvent.sleep_us 50, LcdEvent.bus (low_byte v rs), LcdEvent.sleep_us 50] ∧
    bus_bytes (lcd.write8 [] v rs) =
      [high_byte v rs, high_byte v rs ||| 0x04, high_byte v rs,
        low_byte v rs, low_byte v rs ||| 0x04, low_byte v rs] ∧
    (∀ b ∈ bus_bytes (lcd.write8 [] v rs), b.testBit 3 = true) ∧
    ((high_byte v rs).testBit 2 = false ∧ (high_byte v rs ||| 0x04).testBit 2 = true ∧
      (low_byte v rs).testBit 2 = false ∧ (low_byte v rs ||| 0x04).testBit 2 = true) ∧
    ((high_byte v rs ||| 0x04) &&& 0xF0) ||| ((low_byte v rs ||| 0x04) >>> 4) = v := by
  obtain ⟨h1, h2, h3, h4, h5, h6, h7⟩ := write8_nil_all v hv rs
  have e4 : (4 : Nat).testBit 3 = false := by decide
  have e5 : (4 : Nat).testBit 2 = true := by decide
  refine ⟨?_, h2, ?_, ⟨h5, ?_, h6, ?_⟩, h7⟩
  · rw [write8_append, h1]
    rfl
  · intro b hb
    rw [h2] at hb
    simp only [List.mem_cons, List.mem_singleton, List.mem_nil_iff, or_false] at hb
    rcases hb with hb | hb | hb | hb | hb | hb <;> rw [hb] <;>
      simp [Nat.testBit_or, h3, h4]
  · simp [Nat.testBit_or, e5]
  · simp [Nat.testBit_or, e5]

theorem C12_write8_trace_witness :
    bus_bytes (lcd.write8 [] 0x28 false) = [0x28, 0x2C, 0x28, 0x88, 0x8C, 0x88] :=
  (C12_write8_trace [] 0x28 false (by decide)).2.1

theorem cmd_append (tr : List LcdEvent) (c : Nat) :
    lcd.cmd tr c = tr ++ lcd.cmd [] c := by
  unfold lcd.cmd
  simp only
  rw [write8_append]
  split_ifs <;> simp [lcd.sleep_ms]

theorem init_append (tr : List LcdEvent) : lcd.init tr = tr ++ lcd.init [] := by
  unfold lcd.init
  simp only [lcd.sleep_ms]
  rw [cmd_append, cmd_append (lcd.cmd _ 0x0C), cmd_append (lcd.cmd _ 0x28),
    cmd_append (_ ++ _) 0x28, write4_append, write4_append (_ ++ _) 0x03,
    write4_append (_ ++ _) 0x03, write4_append (_ ++ _) 0x03]
  conv_rhs =>
    rw [cmd_append, cmd_append (lcd.cmd _ 0x0C), cmd_append (lcd.cmd _ 0x28),
      cmd_append (_ ++ _) 0x28, write4_append, write4_append (_ ++ _) 0x03,
      write4_append (_ ++ _) 0x03, write4_append (_ ++ _) 0x03]
  simp only [List.append_assoc, List.nil_append]

theorem init_nil :
    lcd.init [] =
      [LcdEvent.sleep_ms 50] ++
      nibble_events (low_byte 0x03 false) ++ [LcdEvent.sleep_ms 5] ++
      nibble_events (low_byte 0x03 false) ++ [LcdEvent.sleep_ms 5] ++
      nibble_events (low_byte 0x03 false) ++ [LcdEvent.sleep_ms 5] ++
      nibble_events (low_byte 0x02 false) ++ [LcdEvent.sleep_ms 5] ++
      nibble_events (high_byte 0x28 false) ++ nibble_events (low_byte 0x28 false) ++
      nibble_events (high_byte 0x0C false) ++ nibble_events (low_byte 0x0C false) ++
      nibble_events (high_byte 0x01 false) ++ nibble_events (low_byte 0x01 false) ++
      [LcdEvent.sleep_ms 2] ++
      nibble_events (high_byte 0x06 false) ++ nibble_events (low_byte 0x06 false) := by
  decide

/-- Claim C13: `lcd::init` appends to the trace: a 50 ms wait; three times the
command nibble 0x3 followed by a 5 ms wait; the command nibble 0x2 followed by a
5 ms wait; then the 8-bit commands 0x28, 0x0C, 0x01 (followed by the 2 ms settle
wait) and 0x06, each as its high-nibble and low-nibble transaction, all with
register-select 0; and the bus bytes are the 36 bytes listed. -/
theorem C13_init_trace (tr : List LcdEvent) :
    lcd.init tr =
      tr ++ ([LcdEvent.sleep_ms 50] ++
      nibble_events (low_byte 0x03 false) ++ [LcdEvent.sleep_ms 5] ++
      nibble_events (low_byte 0x03 false) ++ [LcdEvent.sleep_ms 5] ++
      nibble_events (low_byte 0x03 false) ++ [LcdEvent.sleep_ms 5] ++
      nibble_events (low_byte 0x02 false) ++ [LcdEvent.sleep_ms 5] ++
      nibble_events (high_byte 0x28 false) ++ nibble_events (low_byte 0x28 false) ++
      nibble_events (high_byte 0x0C false) ++ nibble_events (low_byte 0x0C false) ++
      nibble_events (high_byte 0x01 false) ++ nibble_events (low_byte 0x01 false) ++
      [LcdEvent.sleep_ms 2] ++
      nibble_events (high_byte 0x06 false) ++ nibble_events (low_byte 0x06 false)) ∧
    bus_bytes (lcd.init []) =
      [0x38, 0x3C, 0x38, 0x38, 0x3C, 0x38, 0x38, 0x3C, 0x38, 0x28, 0x2C, 0x28,
        0x28, 0x2C, 0x28, 0x88, 0x8C, 0x88, 0x08, 0x0C, 0x08, 0xC8, 0xCC, 0xC8,
        0x08, 0x0C, 0x08, 0x18, 0x1C, 0x18, 0x08, 0x0C, 0x08, 0x68, 0x6C, 0x68] := by
  refine ⟨?_, by decide⟩
  rw [init_append, init_nil]

theorem cursor_address_bits :
    ∀ c < 16, (0x80 + c).testBit 7 = true ∧ (0xC0 + c).testBit 7 = true := by
  decide

theorem no_sleep_ms_in_write8 (v : Nat) (hv : v < 256) (rs : Bool) (n : Nat) :
    LcdEvent.sleep_ms n ∉ lcd.write8 [] v rs := by
  rw [(write8_nil_all v hv rs).1]
  simp [nibble_events]

/-- Claim C14: for every column `c` in 0..15, `lcd::set_cursor(c, 0)` sends the
one command byte `0x80 + c` and `lcd::set_cursor(c, r)` with `r` non-zero sends
the one command byte `0xC0 + c` (each as one `write8` with register-select 0);
the byte has bit 7 set, is below 256, so the narrowing to `uint8_t` does not
wrap, and no millisecond settle wait follows it. -/
theorem C14_set_cursor (tr : List LcdEvent) (c r : Nat) (hc : c ≤ 15) (hr : r ≠ 0) :
    lcd.set_cursor tr c 0 = lcd.write8 tr (0x80 + c) false ∧
    lcd.set_cursor tr c r = lcd.write8 tr (0xC0 + c) false ∧
    (0x80 + c).testBit 7 = true ∧ (0xC0 + c).testBit 7 = true ∧
    0x80 + c < 256 ∧ 0xC0 + c < 256 ∧
    4 ≤ 0x80 + c ∧ 4 ≤ 0xC0 + c ∧
    (∀ n, LcdEvent.sleep_ms n ∉ lcd.set_cursor [] c 0) ∧
    (∀ n, LcdEvent.sleep_ms n ∉ lcd.set_cursor [] c r) := by
  have e0 : (0x80 + c) % 256 = 0x80 + c := Nat.mod_eq_of_lt (by omega)
  have e1 : (0xC0 + c) % 256 = 0xC0 + c := Nat.mod_eq_of_lt (by omega)
  have n0 : ¬ (0x80 + c < 4) := by omega
  have n1 : ¬ (0xC0 + c < 4) := by omega
  have s0 : ∀ t, lcd.set_cursor t c 0 = lcd.write8 t (0x80 + c) false := by
    intro t
    simp [lcd.set_cursor, lcd.cmd, e0, n0]
  have s1 : ∀ t, lcd.set_cursor t c r = lcd.write8 t (0xC0 + c) false := by
    intro t
    simp [lcd.set_cursor, lcd.cmd, e1, n1, hr]
  obtain ⟨b0, b1⟩ := cursor_address_bits c (by omega)
  refine ⟨s0 tr, s1 tr, b0, b1, by omega, by omega, by omega, by omega, ?_, ?_⟩
  · intro n
    rw [s0]
    exact no_sleep_ms_in_write8 _ (by omega) false n
  · intro n
    rw [s1]
    exact no_sleep_ms_in_write8 _ (by omega) false n

theorem C14_set_cursor_witness :
    bus_bytes (lcd.set_cursor [] 9 0) = [0x88, 0x8C, 0x88, 0x98, 0x9C, 0x98] ∧
    bus_bytes (lcd.set_cursor [] 0 1) = [0xC8, 0xCC, 0xC8, 0x08, 0x0C, 0x08] :=
  have h := C14_set_cursor [] 9 1 (by decide) (by decide)
  have k := C14_set_cursor [] 0 1 (by decide) (by decide)
  ⟨by rw [h.1]; decide, by rw [k.2.1]; decide⟩

/-! ## Adjusting the frequency -/

theorem adjust_freq_flip (s : State) (b : Buttons)
    (hitem : s.cfgIndex = CONFIG_FREQ) (hf : s.t_freq = 50 ∨ s.t_freq = 60)
    (hone : b.up ≠ b.down) :
    adjust_item s b = { s with t_freq := if s.t_freq = 50 then 60 else 50 } := by
  rcases b with ⟨back, fwd, up, down, sel, st, sr⟩
  cases up <;> cases down <;> simp at hone <;>
    rcases hf with hf | hf <;> simp [adjust_item, hitem, hf]

theorem freq_cycle (s : State) (i : Input)
    (hm : s.ui_mode = MODE_CONFIG) (hs : s.cfg_sub = CFG_ADJUST)
    (hitem : s.cfgIndex = CONFIG_FREQ) (hf : s.t_freq = 50 ∨ s.t_freq = 60)
    (hb : i.btn.back = false) (hfw : i.btn.fwd = false) (hone : i.btn.up ≠ i.btn.down) :
    (loop_step s i).t_freq = (if s.t_freq = 50 then 60 else 50) ∧
    (loop_step s i).t_phase = s.t_phase ∧ (loop_step s i).t_seq = s.t_seq ∧
    (loop_step s i).t_fan = s.t_fan ∧ (loop_step s i).phase_cursor = s.phase_cursor ∧
    (loop_step s i).ui_mode = MODE_CONFIG ∧ (loop_step s i).cfgIndex = CONFIG_FREQ := by
  rw [loop_step_adjusting s i hm hs hb hfw, adjust_freq_flip s i.btn hitem hf hone]
  simp [hm, hitem]

/-- Claim C15: editing FREQ with the edit-buffer frequency 50 or 60, a poll cycle
with exactly one of UP and DOWN high and BACK and FWD low replaces the frequency
by the other of the two values, whichever button it is (for any SEL level and
clock value), and changes no other edit-buffer field; the step applied twice
gives the value back, both as `adjust_item` twice and as two such cycles of an
edit session that is still open after the first. -/
theorem C15_frequency_flip (s : State) (i1 i2 : Input)
    (hm : s.ui_mode = MODE_CONFIG) (hs : s.cfg_sub = CFG_ADJUST)
    (hitem : s.cfgIndex = CONFIG_FREQ) (hf : s.t_freq = 50 ∨ s.t_freq = 60)
    (hb1 : i1.btn.back = false) (hf1 : i1.btn.fwd = false) (hone1 : i1.btn.up ≠ i1.btn.down)
    (hb2 : i2.btn.back = false) (hf2 : i2.btn.fwd = false)
    (hone2 : i2.btn.up ≠ i2.btn.down) :
    (loop_step s i1).t_freq = (if s.t_freq = 50 then 60 else 50) ∧
    ((loop_step s i1).t_freq = 50 ∨ (loop_step s i1).t_freq = 60) ∧
    (loop_step s i1).t_freq ≠ s.t_freq ∧
    (loop_step s i1).t_freq = (loop_step s i2).t_freq ∧
    (loop_step s i1).t_phase = s.t_phase ∧
    (loop_step s i1).t_seq = s.t_seq ∧
    (loop_step s i1).t_fan = s.t_fan ∧
    (adjust_item (adjust_item s i1.btn) i2.btn).t_freq = s.t_freq ∧
    ((loop_step s i1).cfg_sub = CFG_ADJUST → (run s [i1, i2]).t_freq = s.t_freq) := by
  obtain ⟨a1, a2, a3, a4, _, a6, a7⟩ := freq_cycle s i1 hm hs hitem hf hb1 hf1 hone1
  obtain ⟨b1, _⟩ := freq_cycle s i2 hm hs hitem hf hb2 hf2 hone2
  have hdom : (loop_step s i1).t_freq = 50 ∨ (loop_step s i1).t_freq = 60 := by
    rw [a1]; rcases hf with h | h <;> simp [h]
  refine ⟨a1, hdom, ?_, a1.trans b1.symm, a2, a3, a4, ?_, fun hadj => ?_⟩
  · rw [a1]; rcases hf with h | h <;> simp [h]
  · have e1 := adjust_freq_flip s i1.btn hitem hf hone1
    have e2 := adjust_freq_flip (adjust_item s i1.btn) i2.btn
      (by rw [adjust_item_cfgIndex]; exact hitem)
      (by rw [e1]; rcases hf with h | h <;> simp [h]) hone2
    rw [e2, e1]
    rcases hf with h | h <;> simp [h]
  · obtain ⟨c1, _⟩ := freq_cycle _ i2 a6 hadj a7 hdom hb2 hf2 hone2
    rw [run_cons, run_cons, run_nil, c1, a1]
    rcases hf with h | h <;> simp [h]

theorem C15_frequency_flip_witness :
    (loop_step edited_freq_state ⟨only_up, 5000000⟩).t_freq = 60 ∧
    (loop_step edited_freq_state ⟨only_down, 5000000⟩).t_freq = 60 ∧
    (run edited_freq_state [⟨only_up, 5000000⟩, ⟨only_down, 6000000⟩]).t_freq = 50 :=
  have hu := C15_frequency_flip edited_freq_state ⟨only_up, 5000000⟩ ⟨only_down, 6000000⟩
    (by decide) (by decide) (by decide) (by decide) rfl rfl (by decide) rfl rfl (by decide)
  have hd := C15_frequency_flip edited_freq_state ⟨only_down, 5000000⟩ ⟨only_up, 6000000⟩
    (by decide) (by decide) (by decide) (by decide) rfl rfl (by decide) rfl rfl (by decide)
  ⟨hu.1, hd.1, hu.2.2.2.2.2.2.2.2 (by decide)⟩

/-! ## Page navigation -/

theorem handle_buttons_ui_mode (s : State) (i : Input) :
    (handle_buttons s i).ui_mode = (page_cycling s i.btn).ui_mode := by
  unfold handle_buttons
  simp only
  split_ifs
  · rw [browse_buttons_ui_mode]
  · rw [adjust_buttons_ui_mode]
  · rfl

theorem forward_cycle (s : State) (i : Input) (hs : s.cfg_sub ≠ CFG_ADJUST)
    (hf : i.btn.fwd = true) (hb : i.btn.back = false) :
    (loop_step s i).ui_mode = next_mode s.ui_mode := by
  rw [loop_step_ui_mode, handle_buttons_ui_mode]
  cases hm : s.ui_mode <;> simp [page_cycling, hs, hf, hb, hm, UIMode.val, UIMode.cast, next_mode]

theorem back_cycle (s : State) (i : Input) (hs : s.cfg_sub ≠ CFG_ADJUST)
    (hb : i.btn.back = true) :
    (loop_step s i).ui_mode = prev_mode s.ui_mode := by
  rw [loop_step_ui_mode, handle_buttons_ui_mode]
  cases hm : s.ui_mode <;> simp [page_cycling, hs, hb, hm, UIMode.val, UIMode.cast, prev_mode]

/-- Claim C16: in a non-editing state a poll cycle with FWD high and BACK low
moves `ui_mode` to its successor and a poll cycle with BACK high moves it to its
predecessor in the cyclic order STATUS, CONFIG, FAULT, STATUS; the result is one
of the three modes; a forward cycle followed by a back cycle, three forward
cycles, and three back cycles give the mode back, each cycle being taken in a
non-editing state. -/
theorem C16_page_cycling (s : State) (i1 i2 i3 : Input) (hs : s.cfg_sub ≠ CFG_ADJUST) :
    (i1.btn.fwd = true → i1.btn.back = false →
      (loop_step s i1).ui_mode = next_mode s.ui_mode) ∧
    (i1.btn.back = true → (loop_step s i1).ui_mode = prev_mode s.ui_mode) ∧
    ((loop_step s i1).ui_mode = MODE_STATUS ∨ (loop_step s i1).ui_mode = MODE_CONFIG ∨
      (loop_step s i1).ui_mode = MODE_FAULT) ∧
    (i1.btn.fwd = true → i1.btn.back = false → i2.btn.back = true →
      (loop_step s i1).cfg_sub ≠ CFG_ADJUST →
      (run s [i1, i2]).ui_mode = s.ui_mode) ∧
    (i1.btn.fwd = true → i1.btn.back = false → i2.btn.fwd = true → i2.btn.back = false →
      i3.btn.fwd = true → i3.btn.back = false →
      (run s [i1]).cfg_sub ≠ CFG_ADJUST → (run s [i1, i2]).cfg_sub ≠ CFG_ADJUST →
      (run s [i1, i2, i3]).ui_mode = s.ui_mode) ∧
    (i1.btn.back = true → i2.btn.back = true → i3.btn.back = true →
      (run s [i1]).cfg_sub ≠ CFG_ADJUST → (run s [i1, i2]).cfg_sub ≠ CFG_ADJUST →
      (run s [i1, i2, i3]).ui_mode = s.ui_mode) := by
  refine ⟨fun hf hb => forward_cycle s i1 hs hf hb, fun hb => back_cycle s i1 hs hb, ?_,
    ?_, ?_, ?_⟩
  · cases (loop_step s i1).ui_mode <;> simp
  · intro hf hb hb2 hs1
    rw [run_cons, run_cons, run_nil, back_cycle _ i2 hs1 hb2, forward_cycle s i1 hs hf hb]
    cases s.ui_mode <;> rfl
  · intro hf1 hb1 hf2 hb2 hf3 hb3 hs1 hs2
    simp only [run_cons, run_nil] at hs1 hs2 ⊢
    rw [forward_cycle _ i3 hs2 hf3 hb3, forward_cycle _ i2 hs1 hf2 hb2,
      forward_cycle s i1 hs hf1 hb1]
    cases s.ui_mode <;> rfl
  · intro hb1 hb2 hb3 hs1 hs2
    simp only [run_cons, run_nil] at hs1 hs2 ⊢
    rw [back_cycle _ i3 hs2 hb3, back_cycle _ i2 hs1 hb2, back_cycle s i1 hs hb1]
    cases s.ui_mode <;> rfl

theorem C16_page_cycling_witness :
    (loop_step init_state ⟨only_fwd, 1000000⟩).ui_mode = MODE_CONFIG ∧
    (loop_step init_state ⟨only_back, 1000000⟩).ui_mode = MODE_FAULT ∧
    (run init_state [⟨only_fwd, 1000000⟩, ⟨only_fwd, 2000000⟩,
      ⟨only_fwd, 3000000⟩]).ui_mode = MODE_STATUS :=
  have h := C16_page_cycling init_state ⟨only_fwd, 1000000⟩ ⟨only_fwd, 2000000⟩
    ⟨only_fwd, 3000000⟩ (by decide)
  have k := C16_page_cycling init_state ⟨only_back, 1000000⟩ ⟨only_fwd, 2000000⟩
    ⟨only_fwd, 3000000⟩ (by decide)
  ⟨h.1 rfl rfl, k.2.1 rfl, h.2.2.2.2.1 rfl rfl rfl rfl rfl rfl (by decide) (by decide)⟩

/-! ## Edit sessions touch one field -/

theorem differs_at_most_refl (item : Nat) (c : Nat × Nat × Nat × FanMode) :
    differs_at_most item c c :=
  ⟨fun _ => rfl, fun _ => rfl, fun _ => rfl, fun _ => rfl⟩

theorem differs_at_most_trans {item : Nat} {a b c : Nat × Nat × Nat × FanMode}
    (h1 : differs_at_most item a b) (h2 : differs_at_most item b c) :
    differs_at_most item a c :=
  ⟨fun h => (h2.1 h).trans (h1.1 h), fun h => (h2.2.1 h).trans (h1.2.1 h),
    fun h => (h2.2.2.1 h).trans (h1.2.2.1 h), fun h => (h2.2.2.2 h).trans (h1.2.2.2 h)⟩

theorem adjust_item_differs (s : State) (b : Buttons) :
    differs_at_most s.cfgIndex (edit_buffer s) (edit_buffer (adjust_item s b)) := by
  unfold adjust_item
  split
  · rename_i h
    rcases b with ⟨back, fwd, up, down, sel, st, sr⟩
    cases up <;> cases down <;> simp [differs_at_most, edit_buffer, h]
  · rename_i h
    simp [differs_at_most, edit_buffer, h]
  · rename_i h
    split_ifs <;> simp [differs_at_most, edit_buffer, h]
  · rename_i h
    split_ifs <;> simp [differs_at_most, edit_buffer, h]
  · exact differs_at_most_refl _ _

theorem long_press_cases (a : State) (i : Input) :
    ((long_press a i).cfg_sub = a.cfg_sub ∧ committed (long_press a i) = committed a ∧
      (long_press a i).commits = a.commits) ∨
    ((long_press a i).cfg_sub = CFG_BROWSE ∧ committed (long_press a i) = edit_buffer a ∧
      (long_press a i).commits = a.commits + 1) := by
  rcases i with ⟨⟨back, fwd, up, down, sel, st, sr⟩, now⟩
  cases sel <;> cases hp : a.sel_prev <;>
    simp [long_press, hp, committed, edit_buffer]
  split_ifs <;> simp

theorem long_press_edit_buffer (a : State) (i : Input) :
    edit_buffer (long_press a i) = edit_buffer a := by
  simp [edit_buffer]

theorem adjust_buttons_cases (s : State) (i : Input) (hs : s.cfg_sub = CFG_ADJUST) :
    differs_at_most s.cfgIndex (edit_buffer s) (edit_buffer (adjust_buttons s i)) ∧
    (((adjust_buttons s i).cfg_sub = CFG_ADJUST ∧
        committed (adjust_buttons s i) = committed s ∧
        (adjust_buttons s i).commits = s.commits) ∨
      ((adjust_buttons s i).cfg_sub = CFG_BROWSE ∧
        committed (adjust_buttons s i) = edit_buffer (adjust_buttons s i) ∧
        (adjust_buttons s i).commits = s.commits + 1)) := by
  unfold adjust_buttons
  split_ifs
  · refine ⟨?_, Or.inr ?_⟩
    · simp [differs_at_most, edit_buffer]
    · simp [committed, edit_buffer]
  · refine ⟨?_, ?_⟩
    · rw [long_press_edit_buffer]
      exact adjust_item_differs s i.btn
    · rw [long_press_edit_buffer]
      rcases long_press_cases (adjust_item s i.btn) i with h | h
      · left
        obtain ⟨h1, h2, h3⟩ := h
        refine ⟨by rw [h1, adjust_item_cfg_sub, hs], by rw [h2]; simp [committed],
          by rw [h3, adjust_item_commits]⟩
      · right
        obtain ⟨h1, h2, h3⟩ := h
        exact ⟨h1, h2, by rw [h3, adjust_item_commits]⟩

theorem handle_buttons_cases (s : State) (i : Input) (hs : s.cfg_sub = CFG_ADJUST) :
    (handle_buttons s i).cfgIndex = s.cfgIndex ∧
    differs_at_most s.cfgIndex (edit_buffer s) (edit_buffer (handle_buttons s i)) ∧
    (((handle_buttons s i).cfg_sub = CFG_ADJUST ∧
        committed (handle_buttons s i) = committed s ∧
        (handle_buttons s i).commits = s.commits) ∨
      ((handle_buttons s i).cfg_sub = CFG_BROWSE ∧
        committed (handle_buttons s i) = edit_buffer (handle_buttons s i) ∧
        (handle_buttons s i).commits = s.commits + 1)) := by
  by_cases hm : s.ui_mode = MODE_CONFIG
  · rw [handle_buttons_of_adjust s i hm hs]
    exact ⟨adjust_buttons_cfgIndex s i, adjust_buttons_cases s i hs⟩
  · rw [handle_buttons_of_adjust_off_page s i hm hs]
    exact ⟨rfl, differs_at_most_refl _ _, Or.inl ⟨hs, rfl, rfl⟩⟩

theorem mode_change_check_cases (x : State) :
    (mode_change_check x).cfgIndex = x.cfgIndex ∧
    edit_buffer (mode_change_check x) = edit_buffer x ∧
    (((mode_change_check x).cfg_sub = x.cfg_sub ∧
        committed (mode_change_check x) = committed x ∧
        (mode_change_check x).commits = x.commits) ∨
      (x.cfg_sub = CFG_ADJUST ∧ (mode_change_check x).cfg_sub = CFG_BROWSE ∧
        committed (mode_change_check x) = edit_buffer x ∧
        (mode_change_check x).commits = x.commits + 1)) := by
  refine ⟨by simp, by simp [edit_buffer], ?_⟩
  unfold mode_change_check
  simp only
  split_ifs with h1 h2
  · right
    simp [committed, edit_buffer, h2]
  · left
    simp [committed]
  · left
    simp [committed]

theorem session_cycle (s : State) (i : Input) (hs : s.cfg_sub = CFG_ADJUST) :
    (loop_step s i).cfgIndex = s.cfgIndex ∧
    differs_at_most s.cfgIndex (edit_buffer s) (edit_buffer (loop_step s i)) ∧
    (((loop_step s i).cfg_sub = CFG_ADJUST ∧ committed (loop_step s i) = committed s ∧
        (loop_step s i).commits = s.commits) ∨
      ((loop_step s i).cfg_sub = CFG_BROWSE ∧
        committed (loop_step s i) = edit_buffer (loop_step s i) ∧
        (loop_step s i).commits = s.commits + 1)) := by
  obtain ⟨a1, a2, a3⟩ := handle_buttons_cases s i hs
  obtain ⟨b1, b2, b3⟩ := mode_change_check_cases (handle_buttons s i)
  have e1 : (loop_step s i).cfgIndex = (mode_change_check (handle_buttons s i)).cfgIndex := by
    simp [loop_step]
  have e2 : edit_buffer (loop_step s i) =
      edit_buffer (mode_change_check (handle_buttons s i)) := by
    simp [loop_step, edit_buffer]
  have e3 : (loop_step s i).cfg_sub = (mode_change_check (handle_buttons s i)).cfg_sub := by
    simp [loop_step]
  have e4 : committed (loop_step s i) =
      committed (mode_change_check (handle_buttons s i)) := by
    simp [loop_step, committed]
  have e5 : (loop_step s i).commits = (mode_change_check (handle_buttons s i)).commits := by
    simp [loop_step]
  rw [e1, e2, e3, e4, e5, b1, b2]
  refine ⟨a1, a2, ?_⟩
  rcases b3 with ⟨c1, c2, c3⟩ | ⟨c0, c1, c2, c3⟩
  · rw [c1, c2, c3]
    exact a3
  · rcases a3 with ⟨d1, d2, d3⟩ | ⟨d1, _, _⟩
    · right
      exact ⟨c1, c2, by rw [c3, d3]⟩
    · rw [d1] at c0
      exact absurd c0 (by decide)

theorem session_run (c0 : Nat × Nat × Nat × FanMode) (item k : Nat) (inputs : List Input) :
    ∀ s : State, s.cfg_sub = CFG_ADJUST → s.cfgIndex = item → committed s = c0 →
      differs_at_most item c0 (edit_buffer s) → s.commits = k →
      stays_editing s inputs = true →
      (run s inputs).cfgIndex = item ∧
      differs_at_most item c0 (edit_buffer (run s inputs)) ∧
      (((run s inputs).cfg_sub = CFG_ADJUST ∧ committed (run s inputs) = c0 ∧
          (run s inputs).commits = k) ∨
        ((run s inputs).cfg_sub = CFG_BROWSE ∧
          committed (run s inputs) = edit_buffer (run s inputs) ∧
          (run s inputs).commits = k + 1)) := by
  induction inputs with
  | nil =>
    intro s hs hx hc hd hk _
    exact ⟨hx, hd, Or.inl ⟨hs, hc, hk⟩⟩
  | cons i rest ih =>
    intro s hs hx hc hd hk hstay
    simp only [stays_editing, Bool.and_eq_true, decide_eq_true_eq] at hstay
    obtain ⟨a1, a2, a3⟩ := session_cycle s i hs
    rw [hx] at a1 a2
    have hd1 := differs_at_most_trans hd a2
    rw [run_cons]
    rcases a3 with ⟨b1, b2, b3⟩ | ⟨b1, b2, b3⟩
    · exact ih _ b1 a1 (b2.trans hc) hd1 (b3.trans hk) hstay.2
    · cases rest with
      | nil =>
        rw [run_nil]
        exact ⟨a1, hd1, Or.inr ⟨b1, b2, by rw [b3, hk]⟩⟩
      | cons j rest2 =>
        simp only [stays_editing, Bool.and_eq_true, decide_eq_true_eq] at hstay
        rw [b1] at hstay
        exact absurd hstay.2.1 (by decide)

theorem browse_buttons_begin (x : State) (b : Buttons) (hx : x.cfg_sub = CFG_BROWSE)
    (h : (browse_buttons x b).cfg_sub = CFG_ADJUST) :
    edit_buffer (browse_buttons x b) = committed x := by
  rcases b with ⟨back, fwd, up, down, sel, st, sr⟩
  cases sel
  · cases up <;> cases down <;> simp [browse_buttons, hx] at h
  · cases hf : x.fan_mode <;> cases up <;> cases down <;>
      simp [browse_buttons, edit_buffer, committed, hf]

theorem begin_cycle (s : State) (i : Input) (hs : s.cfg_sub = CFG_BROWSE)
    (h : (loop_step s i).cfg_sub = CFG_ADJUST) :
    committed (loop_step s i) = committed s ∧
    edit_buffer (loop_step s i) = committed s ∧
    (loop_step s i).commits = s.commits := by
  obtain ⟨f1, f2, _⟩ := browse_cycle_frame s i hs
  obtain ⟨_, _, _, g4⟩ := handle_buttons_of_browsing s i hs
  have e : loop_step s i = refresh_indicators
      { handle_buttons s i with last_mode := (handle_buttons s i).ui_mode } := by
    rw [loop_step, mode_change_check_no_commit _ g4]
  refine ⟨f1, ?_, f2⟩
  rw [e] at h ⊢
  simp only [refresh_indicators_cfg_sub] at h
  have hb : edit_buffer (handle_buttons s i) = committed s := by
    unfold handle_buttons at h ⊢
    simp only at h ⊢
    have hp : (page_cycling s i.btn).cfg_sub = CFG_BROWSE := by
      rw [page_cycling_cfg_sub, hs]
    by_cases hm : (page_cycling s i.btn).ui_mode = MODE_CONFIG
    · simp only [hm, hp, if_true] at h ⊢
      rw [browse_buttons_begin _ _ hp h]
      simp [committed]
    · simp only [hm, if_false] at h
      rw [hp] at h
      exact absurd h (by decide)
  rw [← hb]
  simp [edit_buffer]

/-- Claim C11: for an edit session (a cycle that takes the sub-state from
browsing to adjust, followed by any cycles each of which starts in the adjust
sub-state, under any button levels and clock values), the selected item stays
the one selected when the session began, the edit buffer and the committed
settings at the end differ from the committed settings before the session in at
most the field of that item, nothing is committed while the session is open,
and a session that has ended has committed exactly once, the edit buffer. -/
theorem C11_edit_session_frame (s : State) (begin_edit : Input) (inputs : List Input)
    (hs : s.cfg_sub = CFG_BROWSE)
    (hbegin : (loop_step s begin_edit).cfg_sub = CFG_ADJUST)
    (hstay : stays_editing (loop_step s begin_edit) inputs = true) :
    (run s (begin_edit :: inputs)).cfgIndex = (loop_step s begin_edit).cfgIndex ∧
    differs_at_most (loop_step s begin_edit).cfgIndex (committed s)
      (committed (run s (begin_edit :: inputs))) ∧
    differs_at_most (loop_step s begin_edit).cfgIndex (committed s)
      (edit_buffer (run s (begin_edit :: inputs))) ∧
    ((run s (begin_edit :: inputs)).cfg_sub = CFG_ADJUST →
      committed (run s (begin_edit :: inputs)) = committed s ∧
      (run s (begin_edit :: inputs)).commits = s.commits) ∧
    ((run s (begin_edit :: inputs)).cfg_sub = CFG_BROWSE →
      committed (run s (begin_edit :: inputs)) = edit_buffer (run s (begin_edit :: inputs)) ∧
      (run s (begin_edit :: inputs)).commits = s.commits + 1) := by
  obtain ⟨a1, a2, a3⟩ := begin_cycle s begin_edit hs hbegin
  have hd : differs_at_most (loop_step s begin_edit).cfgIndex (committed s)
      (edit_buffer (loop_step s begin_edit)) := by
    rw [a2]; exact differs_at_most_refl _ _
  obtain ⟨r1, r2, r3⟩ := session_run (committed s) _ s.commits inputs _ hbegin rfl a1 hd a3
    hstay
  rw [run_cons]
  refine ⟨r1, ?_, r2, ?_, ?_⟩
  · rcases r3 with ⟨_, c2, _⟩ | ⟨_, c2, _⟩
    · rw [c2]; exact differs_at_most_refl _ _
    · rw [c2]; exact r2
  · intro hadj
    rcases r3 with ⟨_, c2, c3⟩ | ⟨c1, _, _⟩
    · exact ⟨c2, c3⟩
    · rw [c1] at hadj
      exact absurd hadj (by decide)
  · intro hbr
    rcases r3 with ⟨c1, _, _⟩ | ⟨_, c2, c3⟩
    · rw [c1] at hbr
      exact absurd hbr (by decide)
    · exact ⟨c2, c3⟩

theorem C11_edit_session_frame_witness :
    differs_at_most CONFIG_FREQ (committed config_page_state)
      (committed (run config_page_state
        [⟨only_sel, 2000000⟩, ⟨only_up, 3000000⟩, ⟨only_back, 4000000⟩])) :=
  (C11_edit_session_frame config_page_state ⟨only_sel, 2000000⟩
    [⟨only_up, 3000000⟩, ⟨only_back, 4000000⟩] (by decide) (by decide) (by decide)).2.1

/-! ## Editing happens on the CONFIG page only -/

theorem handle_buttons_editing_on_config (s : State) (i : Input) (h : EditingOnConfig s) :
    (handle_buttons s i).ui_mode = MODE_CONFIG ∨ (handle_buttons s i).cfg_sub = CFG_BROWSE := by
  cases hs : s.cfg_sub
  · exact (handle_buttons_of_browsing s i hs).2.2.2
  · left
    rw [handle_buttons_ui_mode_of_adjust s i hs]
    exact h hs

theorem loop_step_editing_on_config (s : State) (i : Input) (h : EditingOnConfig s) :
    EditingOnConfig (loop_step s i) := by
  have hx := handle_buttons_editing_on_config s i h
  unfold loop_step
  rw [mode_change_check_no_commit _ hx]
  intro hadj
  simp only [refresh_indicators_cfg_sub, refresh_indicators_ui_mode] at hadj ⊢
  rcases hx with hx | hx
  · exact hx
  · rw [hx] at hadj
    exact absurd hadj (by decide)

theorem run_editing_on_config (inputs : List Input) :
    ∀ s : State, EditingOnConfig s → EditingOnConfig (run s inputs) := by
  induction inputs with
  | nil => intro s h; exact h
  | cons i rest ih =>
    intro s h
    rw [run_cons]
    exact ih _ (loop_step_editing_on_config s i h)

theorem init_state_editing_on_config : EditingOnConfig init_state := by
  intro h
  exact absurd h (by decide)

/-- Claim C18: in every state reached from the initial state by poll cycles,
under any button levels and clock values, the adjust sub-state implies
`ui_mode = MODE_CONFIG`; so in the following cycle the condition of the main
loop's defensive branch is false after `handle_buttons`, the mode-change check
only updates `last_mode`, and the commit count and the committed settings of
the cycle are those `handle_buttons` left. -/
theorem C18_editing_only_on_config (inputs : List Input) (i : Input) :
    ((run init_state inputs).cfg_sub = CFG_ADJUST →
      (run init_state inputs).ui_mode = MODE_CONFIG) ∧
    ¬ defensive_branch_taken (handle_buttons (run init_state inputs) i) ∧
    mode_change_check (handle_buttons (run init_state inputs) i) =
      { handle_buttons (run init_state inputs) i with
        last_mode := (handle_buttons (run init_state inputs) i).ui_mode } ∧
    (loop_step (run init_state inputs) i).commits =
      (handle_buttons (run init_state inputs) i).commits ∧
    committed (loop_step (run init_state inputs) i) =
      committed (handle_buttons (run init_state inputs) i) := by
  have hinv := run_editing_on_config inputs init_state init_state_editing_on_config
  have hx := handle_buttons_editing_on_config (run init_state inputs) i hinv
  have e := mode_change_check_no_commit _ hx
  refine ⟨hinv, ?_, e, ?_, ?_⟩
  · rintro ⟨_, h2, h3⟩
    rcases hx with hx | hx
    · exact h2 hx
    · rw [hx] at h3
      exact absurd h3 (by decide)
  · unfold loop_step
    rw [e]
    simp
  · unfold loop_step
    rw [e]
    simp [committed]

/-! ## Pin numbers against the file header -/

/-- Claim C17 fails on the code: the phase LED pins are the documented 28, 27,
26, but the phase selection pins are 18, 17, 16 (documented 20, 21, 22), the
frequency-select pin is 21 (documented 7), the sequence pin is 20 (documented
8) and the fan pin is 19 (documented 13); driving the boot settings (60 Hz)
leaves the documented frequency-select pin 7 low and raises pin 21. -/
theorem C17_pins_differ_from_header :
    PIN_LED_PHASE_A = HEADER_PIN_LED_PHASE_A ∧ PIN_LED_PHASE_B = HEADER_PIN_LED_PHASE_B ∧
    PIN_LED_PHASE_C = HEADER_PIN_LED_PHASE_C ∧
    PIN_PHASE_SEL_A = 18 ∧ PIN_PHASE_SEL_B = 17 ∧ PIN_PHASE_SEL_C = 16 ∧
    PIN_WAVE_FREQ_SELECT = 21 ∧ PIN_PHASE_SEQUENCE = 20 ∧ PIN_FAN_CTL = 19 ∧
    PIN_PHASE_SEL_A ≠ HEADER_PIN_PHASE_SEL_A ∧ PIN_PHASE_SEL_B ≠ HEADER_PIN_PHASE_SEL_B ∧
    PIN_PHASE_SEL_C ≠ HEADER_PIN_PHASE_SEL_C ∧
    PIN_WAVE_FREQ_SELECT ≠ HEADER_PIN_WAVE_FREQ_SELECT ∧
    PIN_PHASE_SEQUENCE ≠ HEADER_PIN_PHASE_SEQUENCE ∧ PIN_FAN_CTL ≠ HEADER_PIN_FAN_CTL ∧
    init_state.freq_hz = 60 ∧
    init_state.pins HEADER_PIN_WAVE_FREQ_SELECT = false ∧
    init_state.pins PIN_WAVE_FREQ_SELECT = true := by
  decide

/-! ## Status page line lengths -/

/-- Claim C19 fails on the code: with the boot settings 60 Hz, fan off, ABC the
first line `page_status` formats is "FREQ=60Hz FAN=OFF", 17 characters, which
with its NUL needs 18 bytes of the 17-byte buffer and is wider than a 16-column
row; with the fan on it is 16 characters; the second line is 7 characters. -/
theorem C19_status_line_too_long :
    init_state.freq_hz = 60 ∧ init_state.fan_mode = FAN_OFF ∧ init_state.phase_seq = 0 ∧
    status_line1 init_state = "FREQ=60Hz FAN=OFF" ∧
    (status_line1 init_state).length = 17 ∧
    LINE_BUFFER_SIZE < (status_line1 init_state).length + 1 ∧
    (status_line1 { init_state with freq_hz := 50 }).length = 17 ∧
    (status_line1 { init_state with fan_mode := FAN_ON }).length = 16 ∧
    (status_line2 init_state).length = 7 ∧
    (status_line2 { init_state with phase_seq := 1 }).length = 7 := by
  decide

theorem status_line1_length (s : State) (hf : s.freq_hz = 50 ∨ s.freq_hz = 60) :
    (status_line1 s).length = if s.fan_mode = FAN_ON then 16 else 17 := by
  rcases hf with h | h <;> cases hm : s.fan_mode <;> simp [status_line1, h, hm] <;> decide

theorem status_line2_length (s : State) : (status_line2 s).length = 7 := by
  unfold status_line2
  split_ifs <;> decide

/-! ## The edit buffer while browsing -/

theorem browse_buttons_stay (x : State) (b : Buttons)
    (h : (browse_buttons x b).cfg_sub = CFG_BROWSE) :
    edit_buffer (browse_buttons x b) = edit_buffer x := by
  rcases b with ⟨back, fwd, up, down, sel, st, sr⟩
  cases sel
  · cases up <;> cases down <;> simp [browse_buttons, edit_buffer]
  · cases up <;> cases down <;> simp [browse_buttons] at h

theorem browse_cycle_edit_buffer (s : State) (i : Input) (hs : s.cfg_sub = CFG_BROWSE)
    (h : (loop_step s i).cfg_sub = CFG_BROWSE) :
    edit_buffer (loop_step s i) = edit_buffer s := by
  obtain ⟨_, _, _, g4⟩ := handle_buttons_of_browsing s i hs
  have e : loop_step s i = refresh_indicators
      { handle_buttons s i with last_mode := (handle_buttons s i).ui_mode } := by
    rw [loop_step, mode_change_check_no_commit _ g4]
  rw [e] at h ⊢
  simp only [refresh_indicators_cfg_sub] at h
  have hb : edit_buffer (handle_buttons s i) = edit_buffer s := by
    unfold handle_buttons at h ⊢
    simp only at h ⊢
    have hp : (page_cycling s i.btn).cfg_sub = CFG_BROWSE := by
      rw [page_cycling_cfg_sub, hs]
    by_cases hm : (page_cycling s i.btn).ui_mode = MODE_CONFIG
    · simp only [hm, hp, if_true] at h ⊢
      rw [browse_buttons_stay _ _ h]
      simp [edit_buffer]
    · simp only [hm, if_false]
      simp [edit_buffer]
  rw [← hb]
  simp [edit_buffer]

theorem loop_step_mirror (s : State) (i : Input) (h : BufferMirrorsCommitted s) :
    BufferMirrorsCommitted (loop_step s i) := by
  intro hbr
  cases hs : s.cfg_sub
  · rw [browse_cycle_edit_buffer s i hs hbr, (browse_cycle_frame s i hs).1]
    exact h hs
  · rcases (session_cycle s i hs).2.2 with ⟨c1, _, _⟩ | ⟨_, c2, _⟩
    · rw [c1] at hbr
      exact absurd hbr (by decide)
    · exact c2.symm

/-- Claim C20 fails on the code: the static edit buffer starts as 0, 0, 0, false
while the committed settings start as 60 Hz, 0b111, ABC, off, so in the boot
state, and on the CONFIG page reached from it by one FWD cycle, the sub-state
is browsing and the edit buffer is not the committed settings: `page_config`
renders "=0" for FREQ where the committed value would read "=60", and "=---"
for PHASE where it would read "=ABC". -/
theorem C20_buffer_differs_at_boot :
    init_state.cfg_sub = CFG_BROWSE ∧
    edit_buffer init_state = (0, 0, 0, FAN_OFF) ∧
    committed init_state = (60, 7, 0, FAN_OFF) ∧
    config_page_state.ui_mode = MODE_CONFIG ∧
    config_page_state.cfg_sub = CFG_BROWSE ∧
    config_page_state.cfgIndex = CONFIG_FREQ ∧
    edit_buffer config_page_state = (0, 0, 0, FAN_OFF) ∧
    committed config_page_state = (60, 7, 0, FAN_OFF) ∧
    config_value config_page_state true = "=0" ∧
    config_value config_page_state false = "=0" ∧
    committed_value config_page_state = "=60" ∧
    phase_selected_state.cfg_sub = CFG_BROWSE ∧
    phase_selected_state.cfgIndex = CONFIG_PHASE ∧
    config_value phase_selected_state true = "=---" ∧
    committed_value phase_selected_state = "=ABC" := by
  decide

/-! ## Scenario: disabling phase C -/

theorem phase_toggle_adjust (s : State) (b : Buttons)
    (hu : b.up = false) (hd : b.down = false) (ht : b.sel_toggle = true)
    (hp : s.sel_prev = false) :
    adjust_phase s b =
      { s with sel_prev := true, t_phase := (s.t_phase ^^^ (1 <<< s.phase_cursor)) % 256 } := by
  simp [adjust_phase, hu, hd, ht, hp]

theorem phase_press_cycle (s0 s : State) (m c : Nat) (i : Input)
    (h : PhaseEditing s0 s m c false)
    (hb : i.btn.back = false) (hf : i.btn.fwd = false)
    (hu : i.btn.up = false) (hd : i.btn.down = false) (ht : i.btn.sel_toggle = true) :
    (loop_step s i).t_phase = (m ^^^ (1 <<< c)) % 256 ∧
    (PhaseEditing s0 (loop_step s i) ((m ^^^ (1 <<< c)) % 256) c i.btn.sel ∨
      (i.btn.sel = false ∧ (loop_step s i).ui_mode = MODE_CONFIG ∧
        (loop_step s i).cfg_sub = CFG_BROWSE ∧
        committed (loop_step s i) =
          (s0.t_freq, (m ^^^ (1 <<< c)) % 256, s0.t_seq,
            if s0.t_fan then FAN_ON else FAN_OFF))) := by
  obtain ⟨hm, hs, hx, h1, h2, h3, h4, h5, h6, h7, h8⟩ := h
  simp only [committed, Prod.mk.injEq] at h7
  have ea := phase_toggle_adjust s i.btn hu hd ht h3
  rw [loop_step_adjusting s i hm hs hb hf, adjust_item_of_phase s _ hx, ea]
  cases hsel : i.btn.sel
  · by_cases hl : held_ms s.sel_time i.now ≥ 600
    · rw [long_press_of_long_release
        { s with sel_prev := true, t_phase := (s.t_phase ^^^ (1 <<< s.phase_cursor)) % 256 }
        i hsel rfl hl]
      refine ⟨by simp [h1, h2], Or.inr ⟨rfl, ?_⟩⟩
      simp [committed, hm, h1, h2, h4, h5, h6]
    · rw [long_press_of_short_release
        { s with sel_prev := true, t_phase := (s.t_phase ^^^ (1 <<< s.phase_cursor)) % 256 }
        i hsel rfl hl]
      refine ⟨by simp [h1, h2], Or.inl ?_⟩
      simp [PhaseEditing, committed, hm, hs, hx, h1, h2, h4, h5, h6, h7, h8]
  · rw [long_press_of_hold
      { s with sel_prev := true, t_phase := (s.t_phase ^^^ (1 <<< s.phase_cursor)) % 256 }
      i hsel rfl]
    refine ⟨by simp [h1, h2], Or.inl ?_⟩
    simp [PhaseEditing, committed, hm, hs, hx, h1, h2, h4, h5, h6, h7, h8]

theorem browse_idle_cycle (s : State) (i : Input) (hs : s.cfg_sub = CFG_BROWSE)
    (hb : i.btn = no_buttons) :
    (loop_step s i).cfg_sub = CFG_BROWSE ∧ (loop_step s i).ui_mode = s.ui_mode ∧
    committed (loop_step s i) = committed s := by
  refine ⟨?_, ?_, (browse_cycle_frame s i hs).1⟩
  · have h4 := (handle_buttons_of_browsing s i hs).2.2.2
    rw [loop_step, mode_change_check_no_commit _ h4]
    simp only [refresh_indicators_cfg_sub]
    unfold handle_buttons
    simp only [page_cycling_cfg_sub, hs, if_true]
    split_ifs <;> simp [browse_buttons, page_cycling, hb, no_buttons, hs]
  · rw [loop_step_ui_mode, handle_buttons_ui_mode]
    simp [page_cycling, hb, no_buttons]

theorem browse_leave_config (s : State) (i : Input)
    (hm : s.ui_mode = MODE_CONFIG) (hs : s.cfg_sub = CFG_BROWSE)
    (hb : i.btn.back = true ∨ i.btn.fwd = true) :
    (loop_step s i).cfg_sub = CFG_BROWSE ∧ committed (loop_step s i) = committed s := by
  refine ⟨?_, (browse_cycle_frame s i hs).1⟩
  have h4 := (handle_buttons_of_browsing s i hs).2.2.2
  rw [loop_step, mode_change_check_no_commit _ h4]
  simp only [refresh_indicators_cfg_sub]
  have hne : (page_cycling s i.btn).ui_mode ≠ MODE_CONFIG := by
    cases hbk : i.btn.back
    · have hfw : i.btn.fwd = true := by
        rcases hb with h | h
        · rw [hbk] at h; exact absurd h (by decide)
        · exact h
      simp [page_cycling, hs, hm, hbk, hfw, UIMode.val, UIMode.cast]
    · simp [page_cycling, hs, hm, hbk, UIMode.val, UIMode.cast]
  unfold handle_buttons
  simp only [hne, if_false]
  rw [page_cycling_cfg_sub, hs]

/-- Claim C6, as amended: from committed settings 60 Hz, mask 0b111, ABC, fan off
on the CONFIG page with PHASE selected, a begin-edit cycle leaves the cursor at
0 and two UP cycles move it to 2; the cycle in which the `CONFIG_PHASE` case
then sees SEL high flips bit C, so the edit-buffer mask is 0b011, whatever SEL
reads later in that cycle; after a cycle with every button low and a confirm
cycle (BACK or FWD high) the sub-state is browsing, the committed mask is 0b011
and the phase LEDs and the phase selection outputs show A and B high and C low.
When the press is still seen at the end of its cycle and is released less than
600 ms later, the session is still open after the release with nothing
committed, and a further SEL press flips bit C back at its rising edge (mask
0b111). -/
theorem C6_phase_scenario (s : State)
    (begin_edit up1 up2 press release confirm again : Input)
    (hm : s.ui_mode = MODE_CONFIG) (hs : s.cfg_sub = CFG_BROWSE)
    (hitem : s.cfgIndex = CONFIG_PHASE) (hc : committed s = (60, 7, 0, FAN_OFF))
    (h1 : begin_edit.btn = only_sel) (h2 : up1.btn = only_up) (h3 : up2.btn = only_up)
    (hb4 : press.btn.back = false) (hf4 : press.btn.fwd = false)
    (hu4 : press.btn.up = false) (hd4 : press.btn.down = false)
    (ht4 : press.btn.sel_toggle = true)
    (h5 : release.btn = no_buttons)
    (h6 : confirm.btn.back = true ∨ confirm.btn.fwd = true) (h7 : again.btn = only_sel) :
    (run s [begin_edit]).phase_cursor = 0 ∧
    (run s [begin_edit, up1, up2]).phase_cursor = 2 ∧
    (run s [begin_edit, up1, up2, press]).t_phase = 3 ∧
    (run s [begin_edit, up1, up2, press, release, confirm]).cfg_sub = CFG_BROWSE ∧
    committed (run s [begin_edit, up1, up2, press, release, confirm])
      = (60, 3, 0, FAN_OFF) ∧
    (run s [begin_edit, up1, up2, press, release, confirm]).pins PIN_LED_PHASE_A = true ∧
    (run s [begin_edit, up1, up2, press, release, confirm]).pins PIN_LED_PHASE_B = true ∧
    (run s [begin_edit, up1, up2, press, release, confirm]).pins PIN_LED_PHASE_C = false ∧
    (run s [begin_edit, up1, up2, press, release, confirm]).pins PIN_PHASE_SEL_A = true ∧
    (run s [begin_edit, up1, up2, press, release, confirm]).pins PIN_PHASE_SEL_B = true ∧
    (run s [begin_edit, up1, up2, press, release, confirm]).pins PIN_PHASE_SEL_C = false ∧
    (press.btn.sel = true → release.now - press.now < 600000 →
      (run s [begin_edit, up1, up2, press, release]).cfg_sub = CFG_ADJUST ∧
      committed (run s [begin_edit, up1, up2, press, release]) = (60, 7, 0, FAN_OFF) ∧
      (run s [begin_edit, up1, up2, press, release]).t_phase = 3 ∧
      (run s [begin_edit, up1, up2, press, release, again]).t_phase = 7) := by
  obtain ⟨a1, a2, a3, a4, a5, a6, _⟩ := begin_edit_step s begin_edit hm hs h1
  rw [hc] at a4 a5
  have hbuf := a5
  simp only [edit_buffer, Prod.mk.injEq] at hbuf
  obtain ⟨b1, b2, b3, b4⟩ := hbuf
  have hx1 : (7 ^^^ 1 <<< 2) % 256 = 3 := by decide
  have hx2 : (3 ^^^ 1 <<< 2) % 256 = 7 := by decide
  have p1 : PhaseEditing (loop_step s begin_edit) (loop_step s begin_edit) 7 0
      (loop_step s begin_edit).sel_prev :=
    ⟨a1, a2, a3.trans hitem, b2, a6, rfl, rfl, rfl, rfl, rfl, rfl⟩
  have p2 := phase_up_step _ _ _ _ _ up1 p1 h2
  have p3 := phase_up_step _ _ _ _ _ up2 p2 h3
  obtain ⟨q1, q2⟩ := phase_press_cycle _ _ _ _ press p3 hb4 hf4 hu4 hd4 ht4
  rw [hx1] at q1 q2
  rw [b1, b3, b4] at q2
  simp only [run_cons, run_nil]
  -- the end of the run, in both cases of the press cycle
  have hend : (loop_step (loop_step (loop_step (loop_step (loop_step
        (loop_step s begin_edit) up1) up2) press) release) confirm).cfg_sub = CFG_BROWSE ∧
      committed (loop_step (loop_step (loop_step (loop_step (loop_step
        (loop_step s begin_edit) up1) up2) press) release) confirm)
        = (60, 3, 0, FAN_OFF) := by
    rcases q2 with q | ⟨_, r1, r2, r3⟩
    · have p5 := phase_idle_step _ _ _ _ _ release q h5
      obtain ⟨c1, c2, _, c4, _, _, c7, c8, c9, _, _⟩ := p5
      obtain ⟨_, d2, _, d4, _⟩ := confirm_step _ confirm c1 c2 h6
      refine ⟨d2, ?_⟩
      rw [d4]
      simp only [edit_buffer, c4, c7, c8, c9, b1, b3, b4]
    · obtain ⟨f1, f2, f3⟩ := browse_idle_cycle _ release r2 h5
      obtain ⟨g1, g2⟩ := browse_leave_config _ confirm (f2.trans r1) f1 h6
      exact ⟨g1, g2.trans (f3.trans r3)⟩
  have hmsk := hend.2
  simp only [committed, Prod.mk.injEq] at hmsk
  obtain ⟨e1, e2, e3, e4, e5, e6⟩ := loop_step_phase_pins
    (loop_step (loop_step (loop_step (loop_step (loop_step s begin_edit) up1) up2) press)
      release) confirm
  refine ⟨a6, p3.2.2.2.2.1, q1, hend.1, hend.2, ?_, ?_, ?_, ?_, ?_, ?_, ?_⟩
  · rw [e1, hmsk.2.1]; decide
  · rw [e2, hmsk.2.1]; decide
  · rw [e3, hmsk.2.1]; decide
  · rw [e4, hmsk.2.1]; decide
  · rw [e5, hmsk.2.1]; decide
  · rw [e6, hmsk.2.1]; decide
  · intro hsel _
    rcases q2 with q | ⟨r0, _⟩
    · rw [hsel] at q
      have p5 := phase_idle_step _ _ _ _ _ release q h5
      have p6 := phase_press_step _ _ _ _ again p5 h7
      rw [hx2] at p6
      exact ⟨p5.2.1, p5.2.2.2.2.2.2.2.2.2.1.trans a4, p5.2.2.2.1, p6.2.2.2.1⟩
    · rw [hsel] at r0
      exact absurd r0 (by decide)

theorem C6_phase_scenario_witness :
    (run phase_selected_state
      [⟨only_sel, 3000000⟩, ⟨only_up, 4000000⟩, ⟨only_up, 5000000⟩, ⟨only_sel, 6000000⟩,
        ⟨no_buttons, 6300000⟩, ⟨only_back, 8000000⟩]).cfg_sub = CFG_BROWSE ∧
    committed (run phase_selected_state
      [⟨only_sel, 3000000⟩, ⟨only_up, 4000000⟩, ⟨only_up, 5000000⟩, ⟨only_sel, 6000000⟩,
        ⟨no_buttons, 6300000⟩, ⟨only_back, 8000000⟩]) = (60, 3, 0, FAN_OFF) ∧
    (run phase_selected_state
      [⟨only_sel, 3000000⟩, ⟨only_up, 4000000⟩, ⟨only_up, 5000000⟩, ⟨only_sel, 6000000⟩,
        ⟨no_buttons, 6300000⟩, ⟨only_sel, 8000000⟩]).t_phase = 7 ∧
    committed (run phase_selected_state
      [⟨only_sel, 3000000⟩, ⟨only_up, 4000000⟩, ⟨only_up, 5000000⟩, ⟨sel_tap, 6000000⟩,
        ⟨no_buttons, 6300000⟩, ⟨only_back, 8000000⟩]) = (60, 3, 0, FAN_OFF) :=
  have h := C6_phase_scenario phase_selected_state ⟨only_sel, 3000000⟩ ⟨only_up, 4000000⟩
    ⟨only_up, 5000000⟩ ⟨only_sel, 6000000⟩ ⟨no_buttons, 6300000⟩ ⟨only_back, 8000000⟩
    ⟨only_sel, 8000000⟩ (by decide) (by decide) (by decide) (by decide) rfl rfl rfl rfl rfl
    rfl rfl rfl rfl (Or.inl rfl) rfl
  have k := C6_phase_scenario phase_selected_state ⟨only_sel, 3000000⟩ ⟨only_up, 4000000⟩
    ⟨only_up, 5000000⟩ ⟨sel_tap, 6000000⟩ ⟨no_buttons, 6300000⟩ ⟨only_back, 8000000⟩
    ⟨only_sel, 8000000⟩ (by decide) (by decide) (by decide) (by decide) rfl rfl rfl rfl rfl
    rfl rfl rfl rfl (Or.inl rfl) rfl
  ⟨h.2.2.2.1, h.2.2.2.2.1, (h.2.2.2.2.2.2.2.2.2.2.2 rfl (by decide)).2.2.2, k.2.2.2.2.1⟩

/-- Claim C6 fails as stated: from boot, with PHASE selected and committed
settings 60 Hz, 0b111, ABC, fan off, the run begin-edit, UP, UP, a SEL press of
300 ms (edit mask 0b011), then SEL held 800 ms and released: the rising edge of
the long press flips bit C of the edit buffer back (mask 0b111), and at the end
of the run the committed mask is 0b111, not 0b011, and the phase C LED and
selection output are high. -/
theorem C6_phase_scenario_counterexample :
    phase_selected_state.ui_mode = MODE_CONFIG ∧
    phase_selected_state.cfg_sub = CFG_BROWSE ∧
    phase_selected_state.cfgIndex = CONFIG_PHASE ∧
    committed phase_selected_state = (60, 7, 0, FAN_OFF) ∧
    (run phase_selected_state phase_scenario_edit).t_phase = 3 ∧
    (run phase_selected_state phase_scenario_edit).phase_cursor = 2 ∧
    (run phase_selected_state (phase_scenario_edit ++ [⟨only_sel, 8000000⟩])).t_phase = 7 ∧
    (run phase_selected_state (phase_scenario_edit ++ long_sel_press)).t_phase = 7 ∧
    committed (run phase_selected_state (phase_scenario_edit ++ long_sel_press))
      = (60, 7, 0, FAN_OFF) ∧
    (run phase_selected_state (phase_scenario_edit ++ long_sel_press)).pins
      PIN_LED_PHASE_C = true ∧
    (run phase_selected_state (phase_scenario_edit ++ long_sel_press)).pins
      PIN_PHASE_SEL_C = true := by
  decide

/-- A tap on SEL while editing PHASE that ends during the `sleep_ms(100)` of the
toggle: the one call flips the bit at the cursor, sees a release edge at line
381 and, `sel_time` still holding its start-up value 0, commits the edit buffer
and returns to browsing. -/
theorem phase_tap_toggles_and_commits :
    editing_phase_state.cfg_sub = CFG_ADJUST ∧
    editing_phase_state.cfgIndex = CONFIG_PHASE ∧
    committed editing_phase_state = (60, 7, 0, FAN_OFF) ∧
    editing_phase_state.sel_time = 0 ∧
    (loop_step editing_phase_state ⟨sel_tap, 5000000⟩).t_phase = 6 ∧
    (loop_step editing_phase_state ⟨sel_tap, 5000000⟩).cfg_sub = CFG_BROWSE ∧
    committed (loop_step editing_phase_state ⟨sel_tap, 5000000⟩) = (60, 6, 0, FAN_OFF) ∧
    (loop_step editing_phase_state ⟨sel_tap, 5000000⟩).commits = 1 := by
  decide

end UI
